import Mathlib

/-! A-Clicker-Game server: the HTTP handlers of `main.go`.

A shallow embedding of `src/main.go`.  Each handler is a function from the
request and the world before the call to the world after it.  The world holds
the state of the database behind `cfg.DB`, the ambient state read by the
`auth` package and the clock, the list of calls the handler made to code
outside `main.go` (with their results), and the list of operations it
performed on its `http.ResponseWriter`.

Everything `main.go` calls but does not define (the packages
`internal/database` and `internal/auth`, and the standard-library parsers and
time functions) is a field of `Env`; the theorems hold for every `Env`.
-/

namespace ClickerServer

/-! ## Values -/

/-- A `uuid.UUID`: sixteen bytes read as one number. -/
structure UUID where
  val : Nat
deriving DecidableEq, Repr

/-- The value `uuid.Nil`: all bytes zero. -/
def UUID.Nil : UUID := ⟨0⟩

/-- An instant (`time.Time`), as seconds since the Unix epoch, read in UTC. -/
abbrev Time := Int

/-- The zero `time.Time`: January 1 of year 1, 00:00:00 UTC. -/
def zeroTime : Time := -62135596800

/-- A `time.Duration`: a number of nanoseconds. -/
abbrev Duration := Int

def Nanosecond : Duration := 1
def Microsecond : Duration := 1000 * Nanosecond
def Millisecond : Duration := 1000 * Microsecond
def Second : Duration := 1000 * Millisecond
def Minute : Duration := 60 * Second
def Hour : Duration := 60 * Minute

/-- A Go `error` value.  `sqlErrNoRows` is the sentinel `sql.ErrNoRows`, which
the code compares against with `==`; every other error is `other`. -/
inductive GoError where
  | sqlErrNoRows
  | other (msg : String)
deriving DecidableEq, Repr

/-- The struct `uuid.NullUUID`. -/
structure NullUUID where
  UUID : UUID
  Valid : Bool
deriving DecidableEq, Repr

/-- The struct `sql.NullTime`. -/
structure NullTime where
  Time : Time
  Valid : Bool
deriving DecidableEq, Repr

/-- An `http.Header`, with one value per key. -/
abbrev Header := List (String × String)

/-- The method `Header.Get`: the value under `key`, or the empty string. -/
def Header.Get (h : Header) (key : String) : String :=
  match h.lookup key with
  | some v => v
  | none => ""

/-- The method `Header.Set`: replaces whatever was under `key`. -/
def Header.Set (h : Header) (key value : String) : Header :=
  h.filter (fun kv => kv.1 ≠ key) ++ [(key, value)]

/-- The parts of an `*http.Request` the handlers read. -/
structure Request where
  Method : String
  Header : Header
  Body : String
  PathValue : String → String

def MethodGet : String := "GET"
def MethodPost : String := "POST"
def MethodPut : String := "PUT"

def StatusOK : Nat := 200
def StatusCreated : Nat := 201
def StatusNoContent : Nat := 204
def StatusBadRequest : Nat := 400
def StatusUnauthorized : Nat := 401
def StatusNotFound : Nat := 404
def StatusMethodNotAllowed : Nat := 405
def StatusUnsupportedMediaType : Nat := 415
def StatusInternalServerError : Nat := 500

/-! ## The types of `main.go` -/

structure apiConfig where
  jwtSecret : String
  jwtIssuer : String
deriving DecidableEq, Repr

structure User where
  ID : UUID
  CreatedAt : Time
  UpdatedAt : Time
  Username : String
  HashedPassword : String
  Token : String
  RefreshToken : String
  SaveID : UUID
deriving DecidableEq, Repr

structure SaveDataRequest where
  Savedata : String
deriving DecidableEq, Repr

structure Save where
  ID : UUID
  CreatedAt : Time
  UpdatedAt : Time
  Savedata : String
  UserID : UUID
deriving DecidableEq, Repr

/-- The local struct `parameters` of `userHandler` and `loginHandler`. -/
structure parameters where
  Username : String
  Password : String
deriving DecidableEq, Repr

/-! ## The types of `internal/database` that `main.go` uses -/

/-- The row type `database.User`, with the fields `main.go` reads. -/
structure DbUser where
  ID : UUID
  CreatedAt : Time
  UpdatedAt : Time
  Username : String
  HashedPassword : String
deriving DecidableEq, Repr

/-- The row type of the save-data queries, with the fields `main.go` reads and
the owner the queries select on. -/
structure DbSave where
  ID : UUID
  CreatedAt : Time
  UpdatedAt : Time
  Savedata : String
  UserID : UUID
deriving DecidableEq, Repr

/-- The row type of the refresh-token queries (`refresh_tokens` in the
persisted schema). -/
structure DbRefreshToken where
  Token : String
  UserID : NullUUID
  ExpiresAt : NullTime
  RevokedAt : NullTime
deriving DecidableEq, Repr

structure UpdateSaveDataParams where
  ID : UUID
  Savedata : String
  UserID : UUID
deriving DecidableEq, Repr

structure CreateSaveDataParams where
  Savedata : String
  UserID : UUID
deriving DecidableEq, Repr

structure CreateUserParams where
  Username : String
  HashedPassword : String
deriving DecidableEq, Repr

structure StoreRefreshTokenParams where
  Token : String
  UserID : NullUUID
  ExpiresAt : NullTime
deriving DecidableEq, Repr

/-! ## JSON output -/

/-- A JSON value as the handlers emit them: a string, the text form of a UUID,
or the RFC 3339 text form of a time. -/
inductive JVal where
  | str (s : String)
  | uuid (u : UUID)
  | time (t : Time)
deriving DecidableEq, Repr

/-- A JSON object: its fields in the order they are written. -/
abbrev JObj := List (String × JVal)

/-- One write to the response body: raw bytes (`w.Write`), the output of
`json.Marshal`, or the output of `Encoder.Encode` (the object and a newline). -/
inductive Chunk where
  | bytes (s : String)
  | json (o : JObj)
  | jsonLine (o : JObj)
deriving DecidableEq, Repr

/-! ## The response writer -/

/-- One operation on an `http.ResponseWriter`. -/
inductive WOp where
  | SetHeader (key value : String)
  | WriteHeader (status : Nat)
  | Write (c : Chunk)
deriving DecidableEq, Repr

/-- What the client receives. -/
structure Response where
  status : Nat
  header : Header
  body : List Chunk
deriving DecidableEq, Repr

/-- The state of a `net/http` response writer: the header map, the status line
and headers once they are sent, and the body so far. -/
structure RWState where
  header : Header
  sent : Option (Nat × Header)
  body : List Chunk

/-- The effect of one operation, as `net/http` defines it: the first
`WriteHeader` sends the status and the headers set so far, a later one is
ignored; a `Write` before any `WriteHeader` sends status 200 first. -/
def RWState.step (s : RWState) : WOp → RWState
  | .SetHeader k v => { s with header := Header.Set s.header k v }
  | .WriteHeader code =>
    match s.sent with
    | none => { s with sent := some (code, s.header) }
    | some _ => s
  | .Write c =>
    match s.sent with
    | none => { s with sent := some (StatusOK, s.header), body := s.body ++ [c] }
    | some _ => { s with body := s.body ++ [c] }

/-- The response a list of writer operations produces. -/
def Response.of (ops : List WOp) : Response :=
  let s := ops.foldl RWState.step ⟨[], none, []⟩
  match s.sent with
  | some (code, h) => ⟨code, h, s.body⟩
  | none => ⟨StatusOK, s.header, s.body⟩

/-- Every status passed to `WriteHeader`, in order. -/
def statusWrites : List WOp → List Nat
  | [] => []
  | .WriteHeader code :: rest => code :: statusWrites rest
  | _ :: rest => statusWrites rest

/-- Every chunk passed to `Write`, in order. -/
def bodyWrites : List WOp → List Chunk
  | [] => []
  | .Write c :: rest => c :: bodyWrites rest
  | _ :: rest => bodyWrites rest

/-! ## Calls that leave `main.go` -/

/-- The result of a call that returns a value and an `error`, with the state
it leaves behind. -/
structure Ret (α : Type) (σ : Type) where
  val : α
  err : Option GoError
  st : σ

/-- A call to code outside `main.go`, with its arguments and what it returned. -/
inductive Event where
  | GetSaveData (id : UUID) (val : DbSave) (err : Option GoError)
  | UpdateSaveData (arg : UpdateSaveDataParams) (err : Option GoError)
  | CreateSaveData (arg : CreateSaveDataParams) (val : DbSave) (err : Option GoError)
  | CreateUser (arg : CreateUserParams) (val : DbUser) (err : Option GoError)
  | GetUserByUsername (username : String) (val : DbUser) (err : Option GoError)
  | StoreRefreshToken (arg : StoreRefreshTokenParams) (val : DbRefreshToken)
      (err : Option GoError)
  | GetSaveDataByUserID (userID : UUID) (val : DbSave) (err : Option GoError)
  | RevokeToken (token : String) (err : Option GoError)
  | GetUserFromRefreshToken (token : String) (val : DbUser) (err : Option GoError)
  | GetBearerToken (h : Header) (val : String) (err : Option GoError)
  | ValidateJWT (token secret issuer : String) (val : UUID) (err : Option GoError)
  | HashPassword (password : String) (val : String) (err : Option GoError)
  | CheckPasswordHash (hash password : String) (err : Option GoError)
  | MakeJWT (userID : UUID) (secret issuer : String) (expiresIn : Duration) (val : String)
      (err : Option GoError)
  | MakeRefreshToken (val : String) (err : Option GoError)
  | Now (val : Time)
  | Printf (format : String) (err : GoError)
deriving DecidableEq, Repr

/-- A call on `cfg.DB`. -/
def Event.isStore : Event → Bool
  | .GetSaveData .. => true
  | .UpdateSaveData .. => true
  | .CreateSaveData .. => true
  | .CreateUser .. => true
  | .GetUserByUsername .. => true
  | .StoreRefreshToken .. => true
  | .GetSaveDataByUserID .. => true
  | .RevokeToken .. => true
  | .GetUserFromRefreshToken .. => true
  | _ => false

/-- A call on `cfg.DB` that inserts or updates. -/
def Event.isStoreWrite : Event → Bool
  | .UpdateSaveData .. => true
  | .CreateSaveData .. => true
  | .CreateUser .. => true
  | .StoreRefreshToken .. => true
  | .RevokeToken .. => true
  | _ => false

/-- A call that validates or mints a token. -/
def Event.isToken : Event → Bool
  | .ValidateJWT .. => true
  | .MakeJWT .. => true
  | .MakeRefreshToken .. => true
  | _ => false

/-- Everything the handlers call that `main.go` does not define.  `σ` is the
state of the database, `ρ` the ambient state (clock, entropy) the `auth`
package and `time.Now` read. -/
structure Env (σ : Type) (ρ : Type) where
  GetSaveData : σ → UUID → Ret DbSave σ
  UpdateSaveData : σ → UpdateSaveDataParams → Ret Unit σ
  CreateSaveData : σ → CreateSaveDataParams → Ret DbSave σ
  CreateUser : σ → CreateUserParams → Ret DbUser σ
  GetUserByUsername : σ → String → Ret DbUser σ
  StoreRefreshToken : σ → StoreRefreshTokenParams → Ret DbRefreshToken σ
  GetSaveDataByUserID : σ → UUID → Ret DbSave σ
  RevokeToken : σ → String → Ret Unit σ
  GetUserFromRefreshToken : σ → String → Ret DbUser σ
  GetBearerToken : Header → String × Option GoError
  ValidateJWT : ρ → String → String → String → Ret UUID ρ
  HashPassword : ρ → String → Ret String ρ
  CheckPasswordHash : String → String → Option GoError
  MakeJWT : ρ → UUID → String → String → Duration → Ret String ρ
  MakeRefreshToken : ρ → Ret String ρ
  Now : ρ → Time × ρ
  AddDate : Time → Int → Int → Int → Time
  TimeMarshalJSON : Time → Option GoError
  uuidParse : String → UUID × Option GoError
  DecodeParameters : String → parameters × Option GoError
  DecodeSaveDataRequest : String → SaveDataRequest × Option GoError
  MarshalDbSave : DbSave → Except GoError JObj

/-- The world a handler runs in. -/
structure World (σ : Type) (ρ : Type) where
  db : σ
  amb : ρ
  trace : List Event
  w : List WOp

variable {σ ρ : Type}

/-- The world at the start of a request: nothing called, nothing written. -/
def World.fresh (db : σ) (amb : ρ) : World σ ρ := ⟨db, amb, [], []⟩

def World.emit (st : World σ ρ) (e : Event) : World σ ρ :=
  { st with trace := st.trace ++ [e] }

def World.write (st : World σ ρ) (op : WOp) : World σ ρ :=
  { st with w := st.w ++ [op] }

/-- Records a call on `cfg.DB`: the database moves to the state the call left. -/
def World.query {α : Type} (st : World σ ρ) (x : Ret α σ)
    (ev : α → Option GoError → Event) : Ret α (World σ ρ) :=
  ⟨x.val, x.err, { st with db := x.st, trace := st.trace ++ [ev x.val x.err] }⟩

/-- Records a call into `auth` that reads the ambient state. -/
def World.ambient {α : Type} (st : World σ ρ) (x : Ret α ρ)
    (ev : α → Option GoError → Event) : Ret α (World σ ρ) :=
  ⟨x.val, x.err, { st with amb := x.st, trace := st.trace ++ [ev x.val x.err] }⟩

/-- The response the client receives from a world. -/
def World.response (st : World σ ρ) : Response := Response.of st.w

/-! ## `main.go` -/

def writeJSONError (st : World σ ρ) (message : String) (status : Nat) : World σ ρ :=
  ((st.write (.SetHeader "Content-Type" "application/json")).write
    (.WriteHeader status)).write (.Write (.jsonLine [("error", .str message)]))

/-- The call `json.NewEncoder(w).Encode(v)` with its error dropped, as every
call site does: nothing is written when the value does not marshal. -/
def Encode (st : World σ ρ) (v : Except GoError JObj) : World σ ρ :=
  match v with
  | .ok o => st.write (.Write (.jsonLine o))
  | .error _ => st

/-- The object `encoding/json` writes for a `User`, from its field tags;
`HashedPassword` is tagged `json:"-"`. -/
def User.toJSON (u : User) : JObj :=
  [("id", .uuid u.ID), ("created_at", .time u.CreatedAt), ("updated_at", .time u.UpdatedAt),
    ("username", .str u.Username), ("token", .str u.Token),
    ("refresh_token", .str u.RefreshToken), ("save_id", .uuid u.SaveID)]

/-- The call `json.Marshal` on a `User`: it fails when a time field does not
marshal. -/
def marshalUser (env : Env σ ρ) (u : User) : Except GoError JObj :=
  match env.TimeMarshalJSON u.CreatedAt with
  | some e => .error e
  | none =>
    match env.TimeMarshalJSON u.UpdatedAt with
    | some e => .error e
    | none => .ok u.toJSON

/-- The object `encoding/json` writes for a `Save`, from its field tags. -/
def Save.toJSON (s : Save) : JObj :=
  [("id", .uuid s.ID), ("created_at", .time s.CreatedAt), ("updated_at", .time s.UpdatedAt),
    ("savedata", .str s.Savedata), ("user_id", .uuid s.UserID)]

/-- The call `json.Marshal` on a `Save`. -/
def marshalSave (env : Env σ ρ) (s : Save) : Except GoError JObj :=
  match env.TimeMarshalJSON s.CreatedAt with
  | some e => .error e
  | none =>
    match env.TimeMarshalJSON s.UpdatedAt with
    | some e => .error e
    | none => .ok s.toJSON

/-- The encoding of the anonymous struct of `refreshHandler`, one string field
tagged `token`. -/
def marshalToken (token : String) : Except GoError JObj :=
  .ok [("token", .str token)]

/-- Lines 323-341 of `loginHandler`: build the response and write it. -/
def loginRespond (env : Env σ ρ) (getUser : DbUser) (accessToken : String)
    (storedRefreshToken : DbRefreshToken) (saveID : UUID) (st : World σ ρ) : World σ ρ :=
  let response : User :=
    { ID := getUser.ID, CreatedAt := getUser.CreatedAt, UpdatedAt := getUser.UpdatedAt,
      Username := getUser.Username, HashedPassword := "", Token := accessToken,
      RefreshToken := storedRefreshToken.Token, SaveID := saveID }
  match marshalUser env response with
  | .error _ => writeJSONError st "Error encoding response" StatusInternalServerError
  | .ok data =>
    ((st.write (.SetHeader "Content-Type" "application/json")).write
      (.WriteHeader StatusOK)).write (.Write (.json data))

def loginHandler (env : Env σ ρ) (cfg : apiConfig) (r : Request) (st : World σ ρ) :
    World σ ρ :=
  if r.Method = MethodPost then
    let dec := env.DecodeParameters r.Body
    let params := dec.1
    match dec.2 with
    | some _ => writeJSONError st "Invalid request payload" StatusBadRequest
    | none =>
      let u := st.query (env.GetUserByUsername st.db params.Username)
        (.GetUserByUsername params.Username)
      let getUser := u.val
      match u.err with
      | some _ => writeJSONError u.st "Incorrect username or password" StatusUnauthorized
      | none =>
        let cerr := env.CheckPasswordHash getUser.HashedPassword params.Password
        let st1 := u.st.emit (.CheckPasswordHash getUser.HashedPassword params.Password cerr)
        match cerr with
        | some _ => writeJSONError st1 "Incorrect username or password" StatusUnauthorized
        | none =>
          let expiresIn := Hour
          let j := st1.ambient
            (env.MakeJWT st1.amb getUser.ID cfg.jwtSecret cfg.jwtIssuer expiresIn)
            (.MakeJWT getUser.ID cfg.jwtSecret cfg.jwtIssuer expiresIn)
          let accessToken := j.val
          match j.err with
          | some _ => writeJSONError j.st "Error creating token" StatusInternalServerError
          | none =>
            let t := j.st.ambient (env.MakeRefreshToken j.st.amb) .MakeRefreshToken
            let refreshToken := t.val
            match t.err with
            | some _ =>
              writeJSONError t.st "Error creating refresh token" StatusInternalServerError
            | none =>
              let now := env.Now t.st.amb
              let st2 := ({ t.st with amb := now.2 } : World σ ρ).emit (.Now now.1)
              let expiresAt := env.AddDate now.1 0 0 60
              let rtParams : StoreRefreshTokenParams :=
                { Token := refreshToken, UserID := ⟨getUser.ID, true⟩,
                  ExpiresAt := ⟨expiresAt, true⟩ }
              let s := st2.query (env.StoreRefreshToken st2.db rtParams)
                (.StoreRefreshToken rtParams)
              let storedRefreshToken := s.val
              match s.err with
              | some _ =>
                writeJSONError s.st "Error storing refresh token" StatusInternalServerError
              | none =>
                let g := s.st.query (env.GetSaveDataByUserID s.st.db getUser.ID)
                  (.GetSaveDataByUserID getUser.ID)
                let getSaveID := g.val
                match g.err with
                | some err =>
                  if err = GoError.sqlErrNoRows then
                    loginRespond env getUser accessToken storedRefreshToken UUID.Nil g.st
                  else
                    writeJSONError g.st "Error getting save id" StatusInternalServerError
                | none =>
                  loginRespond env getUser accessToken storedRefreshToken getSaveID.ID g.st
  else
    writeJSONError st "Method Not Allowed" StatusMethodNotAllowed

/-- The `PUT` case of `saveHandler`. -/
def saveHandlerPut (env : Env σ ρ) (cfg : apiConfig) (r : Request) (st : World σ ρ) :
    World σ ρ :=
  let saveIDStr := r.PathValue "saveID"
  let p := env.uuidParse saveIDStr
  let saveID := p.1
  match p.2 with
  | some _ => writeJSONError st "Invalid UUID format" StatusBadRequest
  | none =>
    let b := env.GetBearerToken r.Header
    let token := b.1
    let st1 := st.emit (.GetBearerToken r.Header b.1 b.2)
    match b.2 with
    | some err =>
      (st1.emit (.Printf "Unauthorized access: %s" err)).write (.WriteHeader StatusUnauthorized)
    | none =>
      let v := st1.ambient (env.ValidateJWT st1.amb token cfg.jwtSecret cfg.jwtIssuer)
        (.ValidateJWT token cfg.jwtSecret cfg.jwtIssuer)
      let userID := v.val
      match v.err with
      | some err =>
        (v.st.emit (.Printf "Unauthorized access: %s" err)).write
          (.WriteHeader StatusUnauthorized)
      | none =>
        if r.Header.Get "Content-Type" ≠ "application/json" then
          writeJSONError v.st "Content-Type must be application/json"
            StatusUnsupportedMediaType
        else
          let d := env.DecodeSaveDataRequest r.Body
          let req := d.1
          match d.2 with
          | some _ => writeJSONError v.st "Invalid JSON" StatusBadRequest
          | none =>
            if req.Savedata = "" then
              writeJSONError v.st "Missing savedata" StatusBadRequest
            else
              let saveParams : UpdateSaveDataParams :=
                { ID := saveID, Savedata := req.Savedata, UserID := userID }
              let u := v.st.query (env.UpdateSaveData v.st.db saveParams)
                (fun _ => .UpdateSaveData saveParams)
              match u.err with
              | some _ =>
                writeJSONError u.st "Failed to save user data" StatusInternalServerError
              | none =>
                let g := u.st.query (env.GetSaveData u.st.db saveID) (.GetSaveData saveID)
                let updatedSave := g.val
                let st2 :=
                  match g.err with
                  | some _ =>
                    writeJSONError g.st "Failed to get user data" StatusInternalServerError
                  | none => g.st
                Encode
                  ((st2.write (.SetHeader "Content-Type" "application/json")).write
                    (.WriteHeader StatusOK))
                  (env.MarshalDbSave updatedSave)

/-- The `POST` case of `saveHandler`. -/
def saveHandlerPost (env : Env σ ρ) (cfg : apiConfig) (r : Request) (st : World σ ρ) :
    World σ ρ :=
  let b := env.GetBearerToken r.Header
  let token := b.1
  let st1 := st.emit (.GetBearerToken r.Header b.1 b.2)
  match b.2 with
  | some err =>
    (st1.emit (.Printf "Unauthorized access: %s" err)).write (.WriteHeader StatusUnauthorized)
  | none =>
    let v := st1.ambient (env.ValidateJWT st1.amb token cfg.jwtSecret cfg.jwtIssuer)
      (.ValidateJWT token cfg.jwtSecret cfg.jwtIssuer)
    let userID := v.val
    match v.err with
    | some err =>
      (v.st.emit (.Printf "Unauthorized access: %s" err)).write
        (.WriteHeader StatusUnauthorized)
    | none =>
      if r.Header.Get "Content-Type" ≠ "application/json" then
        writeJSONError v.st "Content-Type must be application/json"
          StatusUnsupportedMediaType
      else
        let d := env.DecodeSaveDataRequest r.Body
        let req := d.1
        match d.2 with
        | some _ => writeJSONError v.st "Invalid JSON" StatusBadRequest
        | none =>
          if req.Savedata = "" then
            writeJSONError v.st "Missing savedata" StatusBadRequest
          else
            let saveParams : CreateSaveDataParams :=
              { Savedata := req.Savedata, UserID := userID }
            let c := v.st.query (env.CreateSaveData v.st.db saveParams)
              (.CreateSaveData saveParams)
            let save := c.val
            match c.err with
            | some _ =>
              writeJSONError c.st "Failed to save user data" StatusInternalServerError
            | none =>
              let newSave : Save :=
                { ID := save.ID, CreatedAt := save.CreatedAt, UpdatedAt := save.UpdatedAt,
                  Savedata := "", UserID := userID }
              Encode
                ((c.st.write (.SetHeader "Content-Type" "application/json")).write
                  (.WriteHeader StatusCreated))
                (marshalSave env newSave)

def saveHandler (env : Env σ ρ) (cfg : apiConfig) (r : Request) (st : World σ ρ) :
    World σ ρ :=
  if r.Method = MethodGet then
    let saveIDStr := r.PathValue "saveID"
    let p := env.uuidParse saveIDStr
    let saveID := p.1
    match p.2 with
    | some _ => writeJSONError st "Invalid UUID format" StatusBadRequest
    | none =>
      let g := st.query (env.GetSaveData st.db saveID) (.GetSaveData saveID)
      let save := g.val
      match g.err with
      | some _ => writeJSONError g.st "Save not found!" StatusNotFound
      | none =>
        ((g.st.write (.SetHeader "Content-Type" "application/octet-stream")).write
          (.WriteHeader StatusOK)).write (.Write (.bytes save.Savedata))
  else if r.Method = MethodPut then
    saveHandlerPut env cfg r st
  else if r.Method = MethodPost then
    saveHandlerPost env cfg r st
  else
    writeJSONError st "Method Not Allowed" StatusMethodNotAllowed

def userHandler (env : Env σ ρ) (_cfg : apiConfig) (r : Request) (st : World σ ρ) :
    World σ ρ :=
  if r.Method = MethodPost then
    let dec := env.DecodeParameters r.Body
    let params := dec.1
    match dec.2 with
    | some _ => writeJSONError st "Invalid request payload" StatusBadRequest
    | none =>
      let h := st.ambient (env.HashPassword st.amb params.Password)
        (.HashPassword params.Password)
      let hashedPassword := h.val
      match h.err with
      | some _ => writeJSONError h.st "Error processing password" StatusInternalServerError
      | none =>
        let userParams : CreateUserParams :=
          { Username := params.Username, HashedPassword := hashedPassword }
        let c := h.st.query (env.CreateUser h.st.db userParams) (.CreateUser userParams)
        let user := c.val
        match c.err with
        | some _ => writeJSONError c.st "Failed to create user" StatusInternalServerError
        | none =>
          let responseUser : User :=
            { ID := user.ID, CreatedAt := user.CreatedAt, UpdatedAt := user.UpdatedAt,
              Username := user.Username, HashedPassword := "", Token := "",
              RefreshToken := "", SaveID := UUID.Nil }
          Encode
            ((c.st.write (.SetHeader "Content-Type" "application/json")).write
              (.WriteHeader StatusCreated))
            (marshalUser env responseUser)
  else
    writeJSONError st "Method Not Allowed" StatusMethodNotAllowed

def revokedHandler (env : Env σ ρ) (_cfg : apiConfig) (r : Request) (st : World σ ρ) :
    World σ ρ :=
  if r.Method = MethodPost then
    let b := env.GetBearerToken r.Header
    let refreshToken := b.1
    let st1 := st.emit (.GetBearerToken r.Header b.1 b.2)
    match b.2 with
    | some err =>
      (st1.emit (.Printf "Unauthorized refresh access: %s" err)).write
        (.WriteHeader StatusBadRequest)
    | none =>
      let k := st1.query (env.RevokeToken st1.db refreshToken)
        (fun _ => .RevokeToken refreshToken)
      match k.err with
      | some _ => writeJSONError k.st "Unabled to revoke token" StatusUnauthorized
      | none => k.st.write (.WriteHeader StatusNoContent)
  else
    writeJSONError st "Method Not Allowed" StatusMethodNotAllowed

def refreshHandler (env : Env σ ρ) (cfg : apiConfig) (r : Request) (st : World σ ρ) :
    World σ ρ :=
  if r.Method = MethodPost then
    let b := env.GetBearerToken r.Header
    let refreshToken := b.1
    let st1 := st.emit (.GetBearerToken r.Header b.1 b.2)
    match b.2 with
    | some err =>
      (st1.emit (.Printf "Could not find token: %s" err)).write (.WriteHeader StatusBadRequest)
    | none =>
      let u := st1.query (env.GetUserFromRefreshToken st1.db refreshToken)
        (.GetUserFromRefreshToken refreshToken)
      let user := u.val
      match u.err with
      | some _ => writeJSONError u.st "Invalid or missing refresh token" StatusUnauthorized
      | none =>
        let j := u.st.ambient (env.MakeJWT u.st.amb user.ID cfg.jwtSecret cfg.jwtIssuer Hour)
          (.MakeJWT user.ID cfg.jwtSecret cfg.jwtIssuer Hour)
        let newAccessToken := j.val
        match j.err with
        | some _ => writeJSONError j.st "Error creating new token" StatusInternalServerError
        | none =>
          match marshalToken newAccessToken with
          | .error _ => writeJSONError j.st "Error encoding response" StatusInternalServerError
          | .ok data =>
            ((j.st.write (.SetHeader "Content-Type" "application/json")).write
              (.WriteHeader StatusOK)).write (.Write (.json data))
  else
    writeJSONError st "Method Not Allowed" StatusMethodNotAllowed

/-! ## Hiding the stored hash

The device the noninterference statements use: the same environment, except
that every user row the database returns carries `f` of its hashed password. -/

def Ret.mapHash {τ : Type} (f : String → String) (x : Ret DbUser τ) : Ret DbUser τ :=
  ⟨{ x.val with HashedPassword := f x.val.HashedPassword }, x.err, x.st⟩

def Env.mapHash (env : Env σ ρ) (f : String → String) : Env σ ρ :=
  { env with
    CreateUser := fun s p => (env.CreateUser s p).mapHash f
    GetUserByUsername := fun s n => (env.GetUserByUsername s n).mapHash f
    GetUserFromRefreshToken := fun s t => (env.GetUserFromRefreshToken s t).mapHash f }

/-- The same environment, except that `HashPassword` returns `g` of the hash it
computed: the hash `userHandler` receives and hands to the store. -/
def Env.mapHashed (env : Env σ ρ) (g : String → String) : Env σ ρ :=
  { env with
    HashPassword := fun a p =>
      ⟨g (env.HashPassword a p).val, (env.HashPassword a p).err, (env.HashPassword a p).st⟩ }

/-- The store keeps the hash to the `hashed_password` column: whether
`CreateUser` fails, and the id, timestamps and username of the row it returns,
do not depend on the hash it is given. -/
def storeHidesHash (env : Env σ ρ) : Prop :=
  ∀ (s : σ) (p : CreateUserParams) (h : String),
    (env.CreateUser s { p with HashedPassword := h }).err = (env.CreateUser s p).err ∧
    (env.CreateUser s { p with HashedPassword := h }).val.ID = (env.CreateUser s p).val.ID ∧
    (env.CreateUser s { p with HashedPassword := h }).val.CreatedAt =
      (env.CreateUser s p).val.CreatedAt ∧
    (env.CreateUser s { p with HashedPassword := h }).val.UpdatedAt =
      (env.CreateUser s p).val.UpdatedAt ∧
    (env.CreateUser s { p with HashedPassword := h }).val.Username =
      (env.CreateUser s p).val.Username

/-! ## A reference environment

An in-memory database and deterministic stand-ins for `auth` and the standard
library, used to run the handlers on concrete requests. -/

def errBadConn : GoError := .other "driver: bad connection"

def DbUser.zero : DbUser := ⟨UUID.Nil, zeroTime, zeroTime, "", ""⟩

def DbSave.zero : DbSave := ⟨UUID.Nil, zeroTime, zeroTime, "", UUID.Nil⟩

def DbRefreshToken.zero : DbRefreshToken :=
  ⟨"", ⟨UUID.Nil, false⟩, ⟨zeroTime, false⟩, ⟨zeroTime, false⟩⟩

/-- Modelled from the spec: the store collaborator (`internal/database`, absent
from the sources) as the persisted schema of the spec describes it, held in
memory: `users`, `refresh_tokens` and the save table, the clock the database
stamps rows with, and `conn`, the number of statements the connection still
serves before it drops (`none`: it never drops). -/
structure MemStore where
  users : List DbUser
  tokens : List DbRefreshToken
  saves : List DbSave
  now : Time
  conn : Option Nat
deriving DecidableEq, Repr

/-- One statement on the connection: it fails once the connection has dropped. -/
def MemStore.exec {α : Type} (s : MemStore) (zero : α)
    (run : MemStore → Ret α MemStore) : Ret α MemStore :=
  match s.conn with
  | some 0 => ⟨zero, some errBadConn, s⟩
  | some (n + 1) => run { s with conn := some n }
  | none => run s

def MemStore.GetUserByUsername (s : MemStore) (username : String) : Ret DbUser MemStore :=
  s.exec DbUser.zero fun s =>
    match s.users.find? (fun u => u.Username = username) with
    | some u => ⟨u, none, s⟩
    | none => ⟨DbUser.zero, some .sqlErrNoRows, s⟩

def MemStore.CreateUser (s : MemStore) (p : CreateUserParams) : Ret DbUser MemStore :=
  s.exec DbUser.zero fun s =>
    match s.users.find? (fun u => u.Username = p.Username) with
    | some _ => ⟨DbUser.zero, some (.other "duplicate key value: users_username_key"), s⟩
    | none =>
      let u : DbUser := ⟨⟨s.users.length + 1⟩, s.now, s.now, p.Username, p.HashedPassword⟩
      ⟨u, none, { s with users := s.users ++ [u] }⟩

/-- Modelled from the spec: `persist` of the RefreshTokenStore; the token is
the primary key, so a second insert of the same token fails. -/
def MemStore.StoreRefreshToken (s : MemStore) (p : StoreRefreshTokenParams) :
    Ret DbRefreshToken MemStore :=
  s.exec DbRefreshToken.zero fun s =>
    match s.tokens.find? (fun t => t.Token = p.Token) with
    | some _ =>
      ⟨DbRefreshToken.zero, some (.other "duplicate key value: refresh_tokens_pkey"), s⟩
    | none =>
      let t : DbRefreshToken := ⟨p.Token, p.UserID, p.ExpiresAt, ⟨zeroTime, false⟩⟩
      ⟨t, none, { s with tokens := s.tokens ++ [t] }⟩

/-- Modelled from the spec: `resolve` of the RefreshTokenStore: not found when
absent, revoked when `revokedAt` is set, expired when past `expiresAt`. -/
def MemStore.GetUserFromRefreshToken (s : MemStore) (token : String) : Ret DbUser MemStore :=
  s.exec DbUser.zero fun s =>
    match s.tokens.find? (fun t => t.Token = token) with
    | none => ⟨DbUser.zero, some (.other "token not found"), s⟩
    | some t =>
      if t.RevokedAt.Valid then ⟨DbUser.zero, some (.other "token revoked"), s⟩
      else if t.ExpiresAt.Time ≤ s.now then ⟨DbUser.zero, some (.other "token expired"), s⟩
      else
        match s.users.find? (fun u => u.ID = t.UserID.UUID) with
        | some u => ⟨u, none, s⟩
        | none => ⟨DbUser.zero, some .sqlErrNoRows, s⟩

/-- Modelled from the spec: `revoke` of the RefreshTokenStore: sets `revokedAt`
to now on the token when it exists (revoked before or not), fails when it does
not exist. -/
def MemStore.RevokeToken (s : MemStore) (token : String) : Ret Unit MemStore :=
  s.exec () fun s =>
    match s.tokens.find? (fun t => t.Token = token) with
    | none => ⟨(), some .sqlErrNoRows, s⟩
    | some _ =>
      ⟨(), none,
        { s with tokens := s.tokens.map fun t =>
            if t.Token = token then { t with RevokedAt := ⟨s.now, true⟩ } else t }⟩

def MemStore.GetSaveData (s : MemStore) (id : UUID) : Ret DbSave MemStore :=
  s.exec DbSave.zero fun s =>
    match s.saves.find? (fun v => v.ID = id) with
    | some v => ⟨v, none, s⟩
    | none => ⟨DbSave.zero, some .sqlErrNoRows, s⟩

def MemStore.GetSaveDataByUserID (s : MemStore) (userID : UUID) : Ret DbSave MemStore :=
  s.exec DbSave.zero fun s =>
    match s.saves.find? (fun v => v.UserID = userID) with
    | some v => ⟨v, none, s⟩
    | none => ⟨DbSave.zero, some .sqlErrNoRows, s⟩

def MemStore.UpdateSaveData (s : MemStore) (p : UpdateSaveDataParams) : Ret Unit MemStore :=
  s.exec () fun s =>
    match s.saves.find? (fun v => v.ID = p.ID ∧ v.UserID = p.UserID) with
    | none => ⟨(), some .sqlErrNoRows, s⟩
    | some _ =>
      ⟨(), none,
        { s with saves := s.saves.map fun v =>
            if v.ID = p.ID ∧ v.UserID = p.UserID then
              { v with Savedata := p.Savedata, UpdatedAt := s.now }
            else v }⟩

def MemStore.CreateSaveData (s : MemStore) (p : CreateSaveDataParams) : Ret DbSave MemStore :=
  s.exec DbSave.zero fun s =>
    let v : DbSave := ⟨⟨s.saves.length + 1⟩, s.now, s.now, p.Savedata, p.UserID⟩
    ⟨v, none, { s with saves := s.saves ++ [v] }⟩

/-- The claims a signed access token carries, with the key that signed it. -/
structure AccessClaims where
  token : String
  secret : String
  issuer : String
  subject : UUID
  expiresAt : Time
deriving DecidableEq, Repr

/-- The ambient state of the reference environment: the clock, the strings the
random source yields next, and the access tokens signed so far. -/
structure Ambient where
  clock : Time
  entropy : List String
  issued : List AccessClaims
deriving DecidableEq, Repr

def Ambient.GetBearerToken (h : Header) : String × Option GoError :=
  match h.lookup "Authorization" with
  | none => ("", some (.other "no auth header included in request"))
  | some v =>
    match v.data with
    | 'B' :: 'e' :: 'a' :: 'r' :: 'e' :: 'r' :: ' ' :: c :: rest => (String.mk (c :: rest), none)
    | _ => ("", some (.other "malformed authorization header"))

def Ambient.ValidateJWT (a : Ambient) (token secret issuer : String) : Ret UUID Ambient :=
  match a.issued.find? (fun c => c.token = token) with
  | none => ⟨UUID.Nil, some (.other "token is malformed"), a⟩
  | some c =>
    if c.secret ≠ secret then ⟨UUID.Nil, some (.other "signature is invalid"), a⟩
    else if c.issuer ≠ issuer then ⟨UUID.Nil, some (.other "invalid issuer"), a⟩
    else if c.expiresAt ≤ a.clock then ⟨UUID.Nil, some (.other "token is expired"), a⟩
    else ⟨c.subject, none, a⟩

def Ambient.HashPassword (a : Ambient) (password : String) : Ret String Ambient :=
  ⟨"bcrypt:" ++ password, none, a⟩

def Ambient.CheckPasswordHash (hash password : String) : Option GoError :=
  if hash = "bcrypt:" ++ password then none
  else some (.other "hashedPassword is not the hash of the given password")

def Ambient.MakeJWT (a : Ambient) (userID : UUID) (secret issuer : String)
    (expiresIn : Duration) : Ret String Ambient :=
  match a.entropy with
  | [] => ⟨"", some (.other "entropy source exhausted"), a⟩
  | tok :: rest =>
    ⟨tok, none,
      { a with entropy := rest,
               issued := a.issued ++ [⟨tok, secret, issuer, userID, a.clock + expiresIn / Second⟩] }⟩

def Ambient.MakeRefreshToken (a : Ambient) : Ret String Ambient :=
  match a.entropy with
  | [] => ⟨"", some (.other "entropy source exhausted"), a⟩
  | tok :: rest => ⟨tok, none, { a with entropy := rest }⟩

/-- The first instant of year 0 and the first instant of year 10000, in UTC. -/
def yearZero : Time := -62167219200
def yearTenThousand : Time := 253402300800

/-- The method `time.Time.MarshalJSON` accepts years 0 to 9999 only. -/
def refTimeMarshalJSON (t : Time) : Option GoError :=
  if yearZero ≤ t ∧ t < yearTenThousand then none
  else some (.other "Time.MarshalJSON: year outside of range [0,9999]")

def hexVal (c : Char) : Option Nat :=
  let n := c.toNat
  if 48 ≤ n ∧ n ≤ 57 then some (n - 48)
  else if 97 ≤ n ∧ n ≤ 102 then some (n - 87)
  else if 65 ≤ n ∧ n ≤ 70 then some (n - 55)
  else none

def parseHex : List Char → Nat → Option Nat
  | [], acc => some acc
  | c :: cs, acc =>
    match hexVal c with
    | some d => parseHex cs (acc * 16 + d)
    | none => none

/-- The canonical form accepted by `uuid.Parse`: 32 hex digits in groups of
8-4-4-4-12. -/
def refUuidParse (s : String) : UUID × Option GoError :=
  let cs := s.data
  let hex := cs.filter (fun c => c ≠ '-')
  if cs.length = 36 ∧ hex.length = 32 ∧ cs.get? 8 = some '-' ∧ cs.get? 13 = some '-' ∧
      cs.get? 18 = some '-' ∧ cs.get? 23 = some '-' then
    match parseHex hex 0 with
    | some n => (⟨n⟩, none)
    | none => (UUID.Nil, some (.other "invalid UUID format"))
  else (UUID.Nil, some (.other "invalid UUID length"))

/-- Drops the literal `lit` from the front of the input. -/
def dropLit : List Char → List Char → Option (List Char)
  | [], rest => some rest
  | _ :: _, [] => none
  | c :: cs, d :: rest => if c = d then dropLit cs rest else none

/-- Reads a JSON string without escapes up to its closing quote. -/
def takeString : List Char → Option (List Char × List Char)
  | [] => none
  | c :: rest =>
    if c = Char.ofNat 34 then some ([], rest)
    else if c = Char.ofNat 92 then none
    else
      match takeString rest with
      | some (s, r) => some (c :: s, r)
      | none => none

def errSyntax : GoError := .other "invalid character in JSON input"

/-- Decodes a body of the exact shape `{"username":"…","password":"…"}`. -/
def refDecodeParameters (body : String) : parameters × Option GoError :=
  match dropLit "\x7b\"username\":\"".data body.data with
  | none => (⟨"", ""⟩, some errSyntax)
  | some r1 =>
    match takeString r1 with
    | none => (⟨"", ""⟩, some errSyntax)
    | some (u, r2) =>
      match dropLit ",\"password\":\"".data r2 with
      | none => (⟨String.mk u, ""⟩, some errSyntax)
      | some r3 =>
        match takeString r3 with
        | none => (⟨String.mk u, ""⟩, some errSyntax)
        | some (p, r4) =>
          if r4 = "\x7d".data then (⟨String.mk u, String.mk p⟩, none)
          else (⟨String.mk u, String.mk p⟩, some errSyntax)

/-- Decodes a body of the exact shape `{"savedata":"…"}`. -/
def refDecodeSaveDataRequest (body : String) : SaveDataRequest × Option GoError :=
  match dropLit "\x7b\"savedata\":\"".data body.data with
  | none => (⟨""⟩, some errSyntax)
  | some r1 =>
    match takeString r1 with
    | none => (⟨""⟩, some errSyntax)
    | some (d, r2) =>
      if r2 = "\x7d".data then (⟨String.mk d⟩, none) else (⟨String.mk d⟩, some errSyntax)

/-- The encoding of a save row, its Go field names as keys. -/
def refMarshalDbSave (s : DbSave) : Except GoError JObj :=
  match refTimeMarshalJSON s.CreatedAt with
  | some e => .error e
  | none =>
    match refTimeMarshalJSON s.UpdatedAt with
    | some e => .error e
    | none =>
      .ok [("ID", .uuid s.ID), ("CreatedAt", .time s.CreatedAt),
        ("UpdatedAt", .time s.UpdatedAt), ("Savedata", .str s.Savedata),
        ("UserID", .uuid s.UserID)]

/-- The reference environment.  `AddDate` moves by whole days of 86400
seconds, which is what `AddDate(0, 0, days)` does in UTC; the handlers pass no
years and no months. -/
def memEnv : Env MemStore Ambient where
  GetSaveData := MemStore.GetSaveData
  UpdateSaveData := MemStore.UpdateSaveData
  CreateSaveData := MemStore.CreateSaveData
  CreateUser := MemStore.CreateUser
  GetUserByUsername := MemStore.GetUserByUsername
  StoreRefreshToken := MemStore.StoreRefreshToken
  GetSaveDataByUserID := MemStore.GetSaveDataByUserID
  RevokeToken := MemStore.RevokeToken
  GetUserFromRefreshToken := MemStore.GetUserFromRefreshToken
  GetBearerToken := Ambient.GetBearerToken
  ValidateJWT := Ambient.ValidateJWT
  HashPassword := Ambient.HashPassword
  CheckPasswordHash := Ambient.CheckPasswordHash
  MakeJWT := Ambient.MakeJWT
  MakeRefreshToken := Ambient.MakeRefreshToken
  Now := fun a => (a.clock, a)
  AddDate := fun t _ _ days => t + days * 86400
  TimeMarshalJSON := refTimeMarshalJSON
  uuidParse := refUuidParse
  DecodeParameters := refDecodeParameters
  DecodeSaveDataRequest := refDecodeSaveDataRequest
  MarshalDbSave := refMarshalDbSave

/-! ### Sample data -/

def sampleCfg : apiConfig := ⟨"s3cret", "clicker"⟩

/-- 2024-01-01T00:00:00Z. -/
def t2024 : Time := 1704067200

def alice : DbUser := ⟨⟨1⟩, t2024, t2024, "alice", "bcrypt:pw1"⟩

/-- A user whose row was stamped in year 10000. -/
def farFuture : DbUser := ⟨⟨2⟩, yearTenThousand, yearTenThousand, "zed", "bcrypt:pw2"⟩

def aliceToken : DbRefreshToken := ⟨"rt-alice", ⟨⟨1⟩, true⟩, ⟨t2024 + 60 * 86400, true⟩, ⟨zeroTime, false⟩⟩

def aliceSave : DbSave := ⟨⟨1000⟩, t2024, t2024, "c2F2ZQ==", ⟨1⟩⟩

def store0 : MemStore := ⟨[alice, farFuture], [aliceToken], [], t2024 + 5, none⟩

def store1 : MemStore := ⟨[alice, farFuture], [aliceToken], [aliceSave], t2024 + 5, none⟩

def amb0 : Ambient := ⟨t2024 + 5, ["jwt-1", "rt-1", "jwt-2", "rt-2"], []⟩

/-- An ambient state in which alice holds a valid access token `jwt-0`. -/
def amb1 : Ambient :=
  ⟨t2024 + 5, ["jwt-1", "rt-1"], [⟨"jwt-0", "s3cret", "clicker", ⟨1⟩, t2024 + 3600⟩]⟩

def noPath : String → String := fun _ => ""

def savePath : String → String :=
  fun k => if k = "saveID" then "00000000-0000-0000-0000-0000000003e8" else ""

def loginAlice : Request :=
  ⟨"POST", [("Content-Type", "application/json")],
    "\x7b\"username\":\"alice\",\"password\":\"pw1\"\x7d", noPath⟩

def loginAliceWrong : Request :=
  ⟨"POST", [("Content-Type", "application/json")],
    "\x7b\"username\":\"alice\",\"password\":\"wrong\"\x7d", noPath⟩

def loginNobody : Request :=
  ⟨"POST", [("Content-Type", "application/json")],
    "\x7b\"username\":\"bob\",\"password\":\"pw1\"\x7d", noPath⟩

def loginZed : Request :=
  ⟨"POST", [("Content-Type", "application/json")],
    "\x7b\"username\":\"zed\",\"password\":\"pw2\"\x7d", noPath⟩

def bearerAliceToken : Request := ⟨"POST", [("Authorization", "Bearer rt-alice")], "", noPath⟩

def bearerUnknown : Request := ⟨"POST", [("Authorization", "Bearer rt-none")], "", noPath⟩

def noBearer : Request := ⟨"POST", [], "", noPath⟩

def putSave : Request :=
  ⟨"PUT", [("Authorization", "Bearer jwt-0"), ("Content-Type", "application/json")],
    "\x7b\"savedata\":\"bmV3\"\x7d", savePath⟩

def putSaveNoBearer : Request :=
  ⟨"PUT", [("Content-Type", "application/json")], "\x7b\"savedata\":\"bmV3\"\x7d", savePath⟩


/-- A password check under which a password has two valid hashes, one per
salt, as with a salted hash: `bcrypt:` and `bcrypt$b:` followed by the
password. -/
def saltedCheck (hash password : String) : Option GoError :=
  if hash = "bcrypt:" ++ password ∨ hash = "bcrypt$b:" ++ password then none
  else some (.other "hashedPassword is not the hash of the given password")

/-- The reference environment with the two-salt password check. -/
def saltedEnv : Env MemStore Ambient := { memEnv with CheckPasswordHash := saltedCheck }

/-- Replaces alice's stored hash by the hash of the same password under the
other salt. -/
def resalt (h : String) : String := if h = "bcrypt:pw1" then "bcrypt$b:pw1" else h

/-- Another hashing scheme: marks the hash it is given. -/
def rehash (h : String) : String := "argon2:" ++ h

def registerBob : Request :=
  ⟨"POST", [("Content-Type", "application/json")],
    "\x7b\"username\":\"bob\",\"password\":\"pw3\"\x7d", noPath⟩

/-! ## Vocabulary of the statements -/

/-- The writer operations of one `writeJSONError` call. -/
def errorOps (message : String) (status : Nat) : List WOp :=
  [.SetHeader "Content-Type" "application/json", .WriteHeader status,
    .Write (.jsonLine [("error", .str message)])]

/-- The response a client receives from one `writeJSONError` call. -/
def errorResponse (message : String) (status : Nat) : Response :=
  ⟨status, [("Content-Type", "application/json")], [.jsonLine [("error", .str message)]]⟩

/-- Both timestamps of a user row marshal to JSON. -/
def timesMarshal (env : Env σ ρ) (u : DbUser) : Prop :=
  env.TimeMarshalJSON u.CreatedAt = none ∧ env.TimeMarshalJSON u.UpdatedAt = none

instance (env : Env σ ρ) (u : DbUser) : Decidable (timesMarshal env u) := by
  unfold timesMarshal; infer_instance

/-- The keys of a JSON object, in order. -/
def JObj.keys (o : JObj) : List String := o.map Prod.fst

/-! ## Frame lemmas -/

section Frame
variable {σ ρ : Type}

@[simp] theorem fresh_db (db : σ) (amb : ρ) : (World.fresh db amb).db = db := rfl
@[simp] theorem fresh_amb (db : σ) (amb : ρ) : (World.fresh db amb).amb = amb := rfl
@[simp] theorem fresh_trace (db : σ) (amb : ρ) : (World.fresh db amb).trace = [] := rfl
@[simp] theorem fresh_w (db : σ) (amb : ρ) : (World.fresh db amb).w = [] := rfl

@[simp] theorem write_db (st : World σ ρ) (op : WOp) : (st.write op).db = st.db := rfl
@[simp] theorem write_amb (st : World σ ρ) (op : WOp) : (st.write op).amb = st.amb := rfl
@[simp] theorem write_trace (st : World σ ρ) (op : WOp) : (st.write op).trace = st.trace := rfl
@[simp] theorem write_w (st : World σ ρ) (op : WOp) : (st.write op).w = st.w ++ [op] := rfl

@[simp] theorem emit_db (st : World σ ρ) (e : Event) : (st.emit e).db = st.db := rfl
@[simp] theorem emit_amb (st : World σ ρ) (e : Event) : (st.emit e).amb = st.amb := rfl
@[simp] theorem emit_trace (st : World σ ρ) (e : Event) :
    (st.emit e).trace = st.trace ++ [e] := rfl
@[simp] theorem emit_w (st : World σ ρ) (e : Event) : (st.emit e).w = st.w := rfl

@[simp] theorem query_val {α : Type} (st : World σ ρ) (x : Ret α σ)
    (ev : α → Option GoError → Event) : (st.query x ev).val = x.val := rfl
@[simp] theorem query_err {α : Type} (st : World σ ρ) (x : Ret α σ)
    (ev : α → Option GoError → Event) : (st.query x ev).err = x.err := rfl
@[simp] theorem query_db {α : Type} (st : World σ ρ) (x : Ret α σ)
    (ev : α → Option GoError → Event) : (st.query x ev).st.db = x.st := rfl
@[simp] theorem query_amb {α : Type} (st : World σ ρ) (x : Ret α σ)
    (ev : α → Option GoError → Event) : (st.query x ev).st.amb = st.amb := rfl
@[simp] theorem query_trace {α : Type} (st : World σ ρ) (x : Ret α σ)
    (ev : α → Option GoError → Event) :
    (st.query x ev).st.trace = st.trace ++ [ev x.val x.err] := rfl
@[simp] theorem query_w {α : Type} (st : World σ ρ) (x : Ret α σ)
    (ev : α → Option GoError → Event) : (st.query x ev).st.w = st.w := rfl

@[simp] theorem ambient_val {α : Type} (st : World σ ρ) (x : Ret α ρ)
    (ev : α → Option GoError → Event) : (st.ambient x ev).val = x.val := rfl
@[simp] theorem ambient_err {α : Type} (st : World σ ρ) (x : Ret α ρ)
    (ev : α → Option GoError → Event) : (st.ambient x ev).err = x.err := rfl
@[simp] theorem ambient_db {α : Type} (st : World σ ρ) (x : Ret α ρ)
    (ev : α → Option GoError → Event) : (st.ambient x ev).st.db = st.db := rfl
@[simp] theorem ambient_amb {α : Type} (st : World σ ρ) (x : Ret α ρ)
    (ev : α → Option GoError → Event) : (st.ambient x ev).st.amb = x.st := rfl
@[simp] theorem ambient_trace {α : Type} (st : World σ ρ) (x : Ret α ρ)
    (ev : α → Option GoError → Event) :
    (st.ambient x ev).st.trace = st.trace ++ [ev x.val x.err] := rfl
@[simp] theorem ambient_w {α : Type} (st : World σ ρ) (x : Ret α ρ)
    (ev : α → Option GoError → Event) : (st.ambient x ev).st.w = st.w := rfl

@[simp] theorem writeJSONError_db (st : World σ ρ) (m : String) (c : Nat) :
    (writeJSONError st m c).db = st.db := rfl
@[simp] theorem writeJSONError_amb (st : World σ ρ) (m : String) (c : Nat) :
    (writeJSONError st m c).amb = st.amb := rfl
@[simp] theorem writeJSONError_trace (st : World σ ρ) (m : String) (c : Nat) :
    (writeJSONError st m c).trace = st.trace := rfl
@[simp] theorem writeJSONError_w (st : World σ ρ) (m : String) (c : Nat) :
    (writeJSONError st m c).w = st.w ++ [.SetHeader "Content-Type" "application/json",
      .WriteHeader c, .Write (.jsonLine [("error", .str m)])] := by
  simp [writeJSONError]

@[simp] theorem Encode_db (st : World σ ρ) (v : Except GoError JObj) :
    (Encode st v).db = st.db := by cases v <;> rfl
@[simp] theorem Encode_amb (st : World σ ρ) (v : Except GoError JObj) :
    (Encode st v).amb = st.amb := by cases v <;> rfl
@[simp] theorem Encode_trace (st : World σ ρ) (v : Except GoError JObj) :
    (Encode st v).trace = st.trace := by cases v <;> rfl

@[simp] theorem loginRespond_db (env : Env σ ρ) (u : DbUser) (a : String)
    (t : DbRefreshToken) (i : UUID) (st : World σ ρ) :
    (loginRespond env u a t i st).db = st.db := by
  simp only [loginRespond]; split <;> rfl
@[simp] theorem loginRespond_amb (env : Env σ ρ) (u : DbUser) (a : String)
    (t : DbRefreshToken) (i : UUID) (st : World σ ρ) :
    (loginRespond env u a t i st).amb = st.amb := by
  simp only [loginRespond]; split <;> rfl
@[simp] theorem loginRespond_trace (env : Env σ ρ) (u : DbUser) (a : String)
    (t : DbRefreshToken) (i : UUID) (st : World σ ρ) :
    (loginRespond env u a t i st).trace = st.trace := by
  simp only [loginRespond]; split <;> rfl

theorem Encode_w (st : World σ ρ) (v : Except GoError JObj) :
    (Encode st v).w = st.w ++
      match v with
      | .ok o => [.Write (.jsonLine o)]
      | .error _ => [] := by
  cases v <;> simp [Encode]

@[simp] theorem mapHash_DecodeParameters (env : Env σ ρ) (f : String → String) :
    (env.mapHash f).DecodeParameters = env.DecodeParameters := rfl
@[simp] theorem mapHash_HashPassword (env : Env σ ρ) (f : String → String) :
    (env.mapHash f).HashPassword = env.HashPassword := rfl
@[simp] theorem mapHash_CheckPasswordHash (env : Env σ ρ) (f : String → String) :
    (env.mapHash f).CheckPasswordHash = env.CheckPasswordHash := rfl
@[simp] theorem mapHash_MakeJWT (env : Env σ ρ) (f : String → String) :
    (env.mapHash f).MakeJWT = env.MakeJWT := rfl
@[simp] theorem mapHash_MakeRefreshToken (env : Env σ ρ) (f : String → String) :
    (env.mapHash f).MakeRefreshToken = env.MakeRefreshToken := rfl
@[simp] theorem mapHash_Now (env : Env σ ρ) (f : String → String) :
    (env.mapHash f).Now = env.Now := rfl
@[simp] theorem mapHash_AddDate (env : Env σ ρ) (f : String → String) :
    (env.mapHash f).AddDate = env.AddDate := rfl
@[simp] theorem mapHash_StoreRefreshToken (env : Env σ ρ) (f : String → String) :
    (env.mapHash f).StoreRefreshToken = env.StoreRefreshToken := rfl
@[simp] theorem mapHash_GetSaveDataByUserID (env : Env σ ρ) (f : String → String) :
    (env.mapHash f).GetSaveDataByUserID = env.GetSaveDataByUserID := rfl
@[simp] theorem mapHash_TimeMarshalJSON (env : Env σ ρ) (f : String → String) :
    (env.mapHash f).TimeMarshalJSON = env.TimeMarshalJSON := rfl
@[simp] theorem mapHash_CreateUser (env : Env σ ρ) (f : String → String) (s : σ)
    (p : CreateUserParams) :
    (env.mapHash f).CreateUser s p = (env.CreateUser s p).mapHash f := rfl
@[simp] theorem mapHash_GetUserByUsername (env : Env σ ρ) (f : String → String) (s : σ)
    (n : String) :
    (env.mapHash f).GetUserByUsername s n = (env.GetUserByUsername s n).mapHash f := rfl
@[simp] theorem Ret.mapHash_err {τ : Type} (f : String → String) (x : Ret DbUser τ) :
    (x.mapHash f).err = x.err := rfl
@[simp] theorem Ret.mapHash_st {τ : Type} (f : String → String) (x : Ret DbUser τ) :
    (x.mapHash f).st = x.st := rfl
@[simp] theorem Ret.mapHash_ID {τ : Type} (f : String → String) (x : Ret DbUser τ) :
    (x.mapHash f).val.ID = x.val.ID := rfl
@[simp] theorem Ret.mapHash_CreatedAt {τ : Type} (f : String → String) (x : Ret DbUser τ) :
    (x.mapHash f).val.CreatedAt = x.val.CreatedAt := rfl
@[simp] theorem Ret.mapHash_UpdatedAt {τ : Type} (f : String → String) (x : Ret DbUser τ) :
    (x.mapHash f).val.UpdatedAt = x.val.UpdatedAt := rfl
@[simp] theorem Ret.mapHash_Username {τ : Type} (f : String → String) (x : Ret DbUser τ) :
    (x.mapHash f).val.Username = x.val.Username := rfl
@[simp] theorem Ret.mapHash_HashedPassword {τ : Type} (f : String → String)
    (x : Ret DbUser τ) : (x.mapHash f).val.HashedPassword = f x.val.HashedPassword := rfl

@[simp] theorem mapHashed_DecodeParameters (env : Env σ ρ) (g : String → String) :
    (env.mapHashed g).DecodeParameters = env.DecodeParameters := rfl
@[simp] theorem mapHashed_CreateUser (env : Env σ ρ) (g : String → String) :
    (env.mapHashed g).CreateUser = env.CreateUser := rfl
@[simp] theorem mapHashed_HashPassword_val (env : Env σ ρ) (g : String → String) (a : ρ)
    (p : String) :
    ((env.mapHashed g).HashPassword a p).val = g (env.HashPassword a p).val := rfl
@[simp] theorem mapHashed_HashPassword_err (env : Env σ ρ) (g : String → String) (a : ρ)
    (p : String) : ((env.mapHashed g).HashPassword a p).err = (env.HashPassword a p).err := rfl
@[simp] theorem mapHashed_HashPassword_st (env : Env σ ρ) (g : String → String) (a : ρ)
    (p : String) : ((env.mapHashed g).HashPassword a p).st = (env.HashPassword a p).st := rfl
@[simp] theorem marshalUser_mapHashed (env : Env σ ρ) (g : String → String) (u : User) :
    marshalUser (env.mapHashed g) u = marshalUser env u := rfl

theorem memEnv_hides_hash : storeHidesHash memEnv := by
  intro s p h
  have key : ∀ q, memEnv.CreateUser s q = MemStore.CreateUser s q := fun _ => rfl
  simp only [key, MemStore.CreateUser, MemStore.exec]
  rcases s.conn with _ | _ | n
  · dsimp only
    cases s.users.find? (fun u => decide (u.Username = p.Username)) <;> simp
  · simp
  · dsimp only
    cases s.users.find? (fun u => decide (u.Username = p.Username)) <;> simp

@[simp] theorem marshalUser_mapHash (env : Env σ ρ) (f : String → String) (u : User) :
    marshalUser (env.mapHash f) u = marshalUser env u := rfl

@[simp] theorem timesMarshal_mapHash (env : Env σ ρ) (f : String → String) (u : DbUser) :
    timesMarshal (env.mapHash f) u = timesMarshal env u := rfl

@[simp] theorem timesMarshal_val_mapHash {τ : Type} (env : Env σ ρ) (f : String → String)
    (x : Ret DbUser τ) : timesMarshal env (x.mapHash f).val = timesMarshal env x.val := rfl

theorem Encode_marshalUser_w (st : World σ ρ) (env : Env σ ρ) (u : User) :
    (Encode st (marshalUser env u)).w = st.w ++
      if env.TimeMarshalJSON u.CreatedAt = none ∧ env.TimeMarshalJSON u.UpdatedAt = none then
        [.Write (.jsonLine u.toJSON)]
      else [] := by
  simp only [marshalUser]
  by_cases h1 : env.TimeMarshalJSON u.CreatedAt = none
  · by_cases h2 : env.TimeMarshalJSON u.UpdatedAt = none
    · simp [h1, h2, Encode]
    · obtain ⟨e2, he2⟩ := Option.ne_none_iff_exists'.mp h2
      simp [h1, he2, Encode]
  · obtain ⟨e1, he1⟩ := Option.ne_none_iff_exists'.mp h1
    simp [he1, Encode]

theorem loginRespond_w (env : Env σ ρ) (u : DbUser) (a : String)
    (t : DbRefreshToken) (i : UUID) (st : World σ ρ) :
    (loginRespond env u a t i st).w = st.w ++
      if timesMarshal env u then
        [.SetHeader "Content-Type" "application/json", .WriteHeader 200,
          .Write (.json (User.toJSON
            ⟨u.ID, u.CreatedAt, u.UpdatedAt, u.Username, "", a, t.Token, i⟩))]
      else errorOps "Error encoding response" 500 := by
  simp only [loginRespond, marshalUser, timesMarshal]
  by_cases h1 : env.TimeMarshalJSON u.CreatedAt = none
  · by_cases h2 : env.TimeMarshalJSON u.UpdatedAt = none
    · simp [h1, h2, StatusOK]
    · obtain ⟨e2, he2⟩ := Option.ne_none_iff_exists'.mp h2
      simp [h1, he2, errorOps, StatusInternalServerError]
  · obtain ⟨e1, he1⟩ := Option.ne_none_iff_exists'.mp h1
    simp [he1, errorOps, StatusInternalServerError]

@[simp] theorem Response.of_error (k v : String) (c : Nat) (x : Chunk) :
    Response.of [.SetHeader k v, .WriteHeader c, .Write x] = ⟨c, [(k, v)], [x]⟩ := rfl

@[simp] theorem Response.of_status (c : Nat) : Response.of [.WriteHeader c] = ⟨c, [], []⟩ := rfl

end Frame

/-! ## Login: failures -/

/-- C1: a POST login whose body decodes gets the same response, status 401
with content type `application/json` and body
`{"error":"Incorrect username or password"}`, whether `GetUserByUsername`
returned an error or `CheckPasswordHash` did; in both cases no token is minted
or validated, no call on the database writes, and the database is in the state
the one lookup left it in. -/
theorem login_invalid_credentials_same_response (env : Env σ ρ) (cfg : apiConfig)
    (r : Request) (db : σ) (amb : ρ) (out : World σ ρ)
    (hout : loginHandler env cfg r (World.fresh db amb) = out)
    (hm : r.Method = MethodPost) (hd : (env.DecodeParameters r.Body).2 = none)
    (hfail : (∃ n v e, Event.GetUserByUsername n v (some e) ∈ out.trace) ∨
      (∃ h p e, Event.CheckPasswordHash h p (some e) ∈ out.trace)) :
    out.w = errorOps "Incorrect username or password" 401 ∧
    out.response = errorResponse "Incorrect username or password" 401 ∧
    (∀ ev ∈ out.trace, ev.isToken = false ∧ ev.isStoreWrite = false) ∧
    out.db = (env.GetUserByUsername db (env.DecodeParameters r.Body).1.Username).st := by
  unfold loginHandler at hout
  simp only [hm, hd, if_true] at hout
  repeat' split at hout
  all_goals subst hout
  all_goals simp_all [errorOps, errorResponse, World.response, Event.isToken,
    Event.isStoreWrite, StatusUnauthorized]

/-- C1, at two concrete requests: an unknown user and a wrong password. -/
theorem login_invalid_credentials_same_response_witness :
    ((loginHandler memEnv sampleCfg loginNobody (World.fresh store0 amb0)).w =
        errorOps "Incorrect username or password" 401 ∧
      (loginHandler memEnv sampleCfg loginAliceWrong (World.fresh store0 amb0)).w =
        errorOps "Incorrect username or password" 401) ∧
    (loginHandler memEnv sampleCfg loginNobody (World.fresh store0 amb0)).response =
      (loginHandler memEnv sampleCfg loginAliceWrong (World.fresh store0 amb0)).response :=
  have h1 := login_invalid_credentials_same_response memEnv sampleCfg loginNobody store0 amb0
    _ rfl (by decide) (by decide) (Or.inl ⟨"bob", DbUser.zero, .sqlErrNoRows, by decide⟩)
  have h2 := login_invalid_credentials_same_response memEnv sampleCfg loginAliceWrong store0
    amb0 _ rfl (by decide) (by decide)
    (Or.inr ⟨"bcrypt:pw1", "wrong",
      .other "hashedPassword is not the hash of the given password", by decide⟩)
  ⟨⟨h1.1, h2.1⟩, h1.2.1.trans h2.2.1.symm⟩

/-- C2: when `StoreRefreshToken` returns an error in a login (so the user was
found, the password verified and an access token already minted by `MakeJWT`),
the response is the one error response with status 500 and body
`{"error":"Error storing refresh token"}`: it is the same whatever token was
minted, and carries no token. -/
theorem login_store_failure_discards_token (env : Env σ ρ) (cfg : apiConfig)
    (r : Request) (db : σ) (amb : ρ) (out : World σ ρ)
    (hout : loginHandler env cfg r (World.fresh db amb) = out)
    (hfail : ∃ p v e, Event.StoreRefreshToken p v (some e) ∈ out.trace) :
    out.w = errorOps "Error storing refresh token" 500 ∧
    out.response = errorResponse "Error storing refresh token" 500 ∧
    (∃ n u, Event.GetUserByUsername n u none ∈ out.trace) ∧
    (∃ h p, Event.CheckPasswordHash h p none ∈ out.trace) ∧
    (∃ uid s i ttl tok, Event.MakeJWT uid s i ttl tok none ∈ out.trace) := by
  unfold loginHandler at hout
  by_cases hm : r.Method = MethodPost
  · simp only [hm, if_true] at hout
    repeat' split at hout
    all_goals subst hout
    all_goals simp_all [errorOps, errorResponse, World.response, StatusInternalServerError]
  · simp only [hm, if_false] at hout
    subst hout
    simp_all

/-- C2, at a concrete login during which the database connection drops after
the user lookup. -/
theorem login_store_failure_discards_token_witness :
    (loginHandler memEnv sampleCfg loginAlice
        (World.fresh { store0 with conn := some 1 } amb0)).response =
      errorResponse "Error storing refresh token" 500 ∧
    Event.MakeJWT ⟨1⟩ "s3cret" "clicker" Hour "jwt-1" none ∈
      (loginHandler memEnv sampleCfg loginAlice
        (World.fresh { store0 with conn := some 1 } amb0)).trace :=
  ⟨(login_store_failure_discards_token memEnv sampleCfg loginAlice
      { store0 with conn := some 1 } amb0 _ rfl
      ⟨⟨"rt-1", ⟨⟨1⟩, true⟩, ⟨t2024 + 5 + 60 * 86400, true⟩⟩, DbRefreshToken.zero, errBadConn,
        by decide⟩).2.1,
    by decide⟩


/-! ## Refresh -/

/-- C3: whatever error `GetUserFromRefreshToken` returns, `refreshHandler`
writes the one response with status 401 and body
`{"error":"Invalid or missing refresh token"}`; the response does not depend on
the error, and no token is minted or validated. -/
theorem refresh_lookup_error_one_response (env : Env σ ρ) (cfg : apiConfig)
    (r : Request) (db : σ) (amb : ρ) (out : World σ ρ)
    (hout : refreshHandler env cfg r (World.fresh db amb) = out)
    (hfail : ∃ t v e, Event.GetUserFromRefreshToken t v (some e) ∈ out.trace) :
    out.w = errorOps "Invalid or missing refresh token" 401 ∧
    out.response = errorResponse "Invalid or missing refresh token" 401 ∧
    (∀ ev ∈ out.trace, ev.isToken = false) ∧ out.amb = amb := by
  unfold refreshHandler at hout
  by_cases hm : r.Method = MethodPost
  · simp only [hm, if_true] at hout
    repeat' split at hout
    all_goals subst hout
    all_goals simp_all [errorOps, errorResponse, World.response, Event.isToken,
      StatusUnauthorized]
  · simp only [hm, if_false] at hout
    subst hout
    simp_all

/-- C3, at two concrete requests: a token the store does not hold, and a token
that was revoked; the two responses are equal. -/
theorem refresh_lookup_error_one_response_witness :
    (refreshHandler memEnv sampleCfg bearerUnknown (World.fresh store0 amb0)).response =
      errorResponse "Invalid or missing refresh token" 401 ∧
    (refreshHandler memEnv sampleCfg bearerAliceToken
        (World.fresh (revokedHandler memEnv sampleCfg bearerAliceToken
          (World.fresh store0 amb0)).db amb0)).response =
      errorResponse "Invalid or missing refresh token" 401 :=
  ⟨(refresh_lookup_error_one_response memEnv sampleCfg bearerUnknown store0 amb0 _ rfl
      ⟨"rt-none", DbUser.zero, .other "token not found", by decide⟩).2.1,
    (refresh_lookup_error_one_response memEnv sampleCfg bearerAliceToken
      (revokedHandler memEnv sampleCfg bearerAliceToken (World.fresh store0 amb0)).db amb0 _ rfl
      ⟨"rt-alice", DbUser.zero, .other "token revoked", by decide⟩).2.1⟩

/-- C4: `refreshHandler` does not rotate the refresh token.  Its only call on
the database is one `GetUserFromRefreshToken` at most (never
`StoreRefreshToken`, never `RevokeToken`, no writing call), so the database is
left as that one read leaves it, unchanged when the read changes nothing; and
a response with status 200 is exactly the JSON object with the single field
`token`, the access token `MakeJWT` just returned. -/
theorem refresh_does_not_rotate (env : Env σ ρ) (cfg : apiConfig)
    (r : Request) (db : σ) (amb : ρ) (out : World σ ρ)
    (hout : refreshHandler env cfg r (World.fresh db amb) = out) :
    (∀ ev ∈ out.trace, ev.isStore = true → ∃ t v e, ev = .GetUserFromRefreshToken t v e) ∧
    (out.trace.filter Event.isStore).length ≤ 1 ∧
    (∀ ev ∈ out.trace, ev.isStoreWrite = false) ∧
    (out.db = db ∨ ∃ t, out.db = (env.GetUserFromRefreshToken db t).st) ∧
    ((∀ s t, (env.GetUserFromRefreshToken s t).st = s) → out.db = db) ∧
    (out.response.status = 200 →
      ∃ uid tok, Event.MakeJWT uid cfg.jwtSecret cfg.jwtIssuer Hour tok none ∈ out.trace ∧
        out.w = [.SetHeader "Content-Type" "application/json", .WriteHeader 200,
          .Write (.json [("token", .str tok)])] ∧
        out.response.body = [.json [("token", .str tok)]]) := by
  unfold refreshHandler at hout
  by_cases hm : r.Method = MethodPost
  · simp only [hm, if_true] at hout
    repeat' split at hout
    all_goals subst hout
    all_goals simp_all [World.response, Event.isStore, Event.isStoreWrite, marshalToken,
      StatusOK, StatusBadRequest, StatusUnauthorized, StatusInternalServerError]
    all_goals try subst_vars
    all_goals first
      | exact Or.inr ⟨_, rfl⟩
      | exact ⟨Or.inr ⟨_, rfl⟩, _, _, ⟨rfl, rfl⟩, rfl⟩
  · simp only [hm, if_false] at hout
    subst hout
    simp_all [World.response, StatusMethodNotAllowed]

/-- C4, at a concrete refresh: the token table of the store is the same after
the call, and the body holds the new access token only. -/
theorem refresh_does_not_rotate_witness :
    (refreshHandler memEnv sampleCfg bearerAliceToken (World.fresh store0 amb0)).db = store0 ∧
    (refreshHandler memEnv sampleCfg bearerAliceToken (World.fresh store0 amb0)).response.body =
      [.json [("token", .str "jwt-1")]] :=
  have h := refresh_does_not_rotate memEnv sampleCfg bearerAliceToken store0 amb0 _ rfl
  ⟨by
      rcases h.2.2.2.1 with h1 | ⟨t, h1⟩
      · exact h1
      · decide,
    by decide⟩


/-! ## Login: the save lookup -/

/-- C5, as stated, fails: alice's neighbour `zed` has a row stamped in year
10000; the login passes the credential check, mints both tokens, stores the
refresh token, finds no save (`sql.ErrNoRows`), and still answers 500, because
`json.Marshal` rejects the timestamp. -/
theorem login_no_rows_yet_status_500 :
    (∃ p v, Event.StoreRefreshToken p v none ∈
      (loginHandler memEnv sampleCfg loginZed (World.fresh store0 amb0)).trace) ∧
    (∃ u v, Event.GetSaveDataByUserID u v (some .sqlErrNoRows) ∈
      (loginHandler memEnv sampleCfg loginZed (World.fresh store0 amb0)).trace) ∧
    (loginHandler memEnv sampleCfg loginZed (World.fresh store0 amb0)).response.status = 500 ∧
    (loginHandler memEnv sampleCfg loginZed (World.fresh store0 amb0)).response =
      errorResponse "Error encoding response" 500 :=
  ⟨⟨⟨"rt-1", ⟨⟨2⟩, true⟩, ⟨t2024 + 5 + 60 * 86400, true⟩⟩,
      ⟨"rt-1", ⟨⟨2⟩, true⟩, ⟨t2024 + 5 + 60 * 86400, true⟩, ⟨zeroTime, false⟩⟩, by decide⟩,
    ⟨⟨2⟩, DbSave.zero, by decide⟩, by decide, by decide⟩

/-- C5, amended: in a login whose credential check, token minting and
refresh-token persistence succeeded, the save of the user found is looked up,
and, provided the two timestamps of the user marshal to JSON: when the lookup
fails with `sql.ErrNoRows` the status is 200 and `save_id` is the nil UUID;
when it succeeds the status is 200 and `save_id` is the id of the save
returned; and the status is 500 exactly when the lookup fails with another
error.  When a timestamp does not marshal the status is 500 in every case. -/
theorem login_save_lookup (env : Env σ ρ) (cfg : apiConfig)
    (r : Request) (db : σ) (amb : ρ) (out : World σ ρ)
    (hout : loginHandler env cfg r (World.fresh db amb) = out)
    (hstored : ∃ p v, Event.StoreRefreshToken p v none ∈ out.trace) :
    ∃ n user sv err,
      Event.GetUserByUsername n user none ∈ out.trace ∧
      Event.GetSaveDataByUserID user.ID sv err ∈ out.trace ∧
      (timesMarshal env user →
        (err = some .sqlErrNoRows →
          out.response.status = 200 ∧
          ∃ o, out.response.body = [.json o] ∧ o.lookup "save_id" = some (.uuid UUID.Nil)) ∧
        (err = none →
          out.response.status = 200 ∧
          ∃ o, out.response.body = [.json o] ∧ o.lookup "save_id" = some (.uuid sv.ID)) ∧
        (out.response.status = 500 ↔ ∃ e, err = some e ∧ e ≠ .sqlErrNoRows)) ∧
      (¬ timesMarshal env user → out.response.status = 500) := by
  unfold loginHandler at hout
  by_cases hm : r.Method = MethodPost
  · simp only [hm, if_true] at hout
    repeat' split at hout
    all_goals subst hout
    all_goals simp_all [World.response, loginRespond_w, StatusInternalServerError]
    all_goals refine ⟨_, _, ⟨rfl, rfl⟩, _, _, ⟨rfl, rfl, rfl⟩, ?_⟩
    all_goals try split
    all_goals simp_all +decide [errorOps, User.toJSON, List.lookup]
  · simp only [hm, if_false] at hout
    subst hout
    simp_all

/-- C5 amended, at two concrete logins: alice without a save and alice with
one. -/
theorem login_save_lookup_witness :
    ((loginHandler memEnv sampleCfg loginAlice (World.fresh store0 amb0)).response.status = 200 ∧
      (loginHandler memEnv sampleCfg loginAlice (World.fresh store0 amb0)).response.body =
        [.json (User.toJSON ⟨⟨1⟩, t2024, t2024, "alice", "", "jwt-1", "rt-1", UUID.Nil⟩)]) ∧
    (loginHandler memEnv sampleCfg loginAlice (World.fresh store1 amb0)).response.body =
      [.json (User.toJSON ⟨⟨1⟩, t2024, t2024, "alice", "", "jwt-1", "rt-1", ⟨1000⟩⟩)] ∧
    ∃ n user sv err,
      Event.GetUserByUsername n user none ∈
        (loginHandler memEnv sampleCfg loginAlice (World.fresh store0 amb0)).trace ∧
      Event.GetSaveDataByUserID user.ID sv err ∈
        (loginHandler memEnv sampleCfg loginAlice (World.fresh store0 amb0)).trace :=
  have h := login_save_lookup memEnv sampleCfg loginAlice store0 amb0 _ rfl
    ⟨⟨"rt-1", ⟨⟨1⟩, true⟩, ⟨t2024 + 5 + 60 * 86400, true⟩⟩,
      ⟨"rt-1", ⟨⟨1⟩, true⟩, ⟨t2024 + 5 + 60 * 86400, true⟩, ⟨zeroTime, false⟩⟩, by decide⟩
  ⟨by decide, by decide,
    match h with
    | ⟨n, user, sv, err, h1, h2, _⟩ => ⟨n, user, sv, err, h1, h2⟩⟩


/-! ## Token lifetimes -/

/-- C7: in `refreshHandler`, `revokedHandler` and `saveHandler` (whose `PUT`
and `POST` cases read a bearer token), when `GetBearerToken` returned an error
the handler writes a bare status and stops: 400 for refresh and revoke, 401
for save; no call on the database was made, no token was validated or minted,
and the database and the ambient state are untouched. -/
theorem bearer_error_stops_handler (env : Env σ ρ) (cfg : apiConfig) (r : Request)
    (db : σ) (amb : ρ) (h : Header) (v : String) (e : GoError) :
    (Event.GetBearerToken h v (some e) ∈ (refreshHandler env cfg r (World.fresh db amb)).trace →
      (refreshHandler env cfg r (World.fresh db amb)).w = [.WriteHeader 400] ∧
      (refreshHandler env cfg r (World.fresh db amb)).response.status = 400 ∧
      (∀ ev ∈ (refreshHandler env cfg r (World.fresh db amb)).trace,
        ev.isStore = false ∧ ev.isToken = false) ∧
      (refreshHandler env cfg r (World.fresh db amb)).db = db ∧
      (refreshHandler env cfg r (World.fresh db amb)).amb = amb) ∧
    (Event.GetBearerToken h v (some e) ∈ (revokedHandler env cfg r (World.fresh db amb)).trace →
      (revokedHandler env cfg r (World.fresh db amb)).w = [.WriteHeader 400] ∧
      (revokedHandler env cfg r (World.fresh db amb)).response.status = 400 ∧
      (∀ ev ∈ (revokedHandler env cfg r (World.fresh db amb)).trace,
        ev.isStore = false ∧ ev.isToken = false) ∧
      (revokedHandler env cfg r (World.fresh db amb)).db = db ∧
      (revokedHandler env cfg r (World.fresh db amb)).amb = amb) ∧
    (Event.GetBearerToken h v (some e) ∈ (saveHandler env cfg r (World.fresh db amb)).trace →
      (r.Method = MethodPut ∨ r.Method = MethodPost) ∧
      (saveHandler env cfg r (World.fresh db amb)).w = [.WriteHeader 401] ∧
      (saveHandler env cfg r (World.fresh db amb)).response.status = 401 ∧
      (∀ ev ∈ (saveHandler env cfg r (World.fresh db amb)).trace,
        ev.isStore = false ∧ ev.isToken = false) ∧
      (saveHandler env cfg r (World.fresh db amb)).db = db ∧
      (saveHandler env cfg r (World.fresh db amb)).amb = amb) := by
  refine ⟨?_, ?_, ?_⟩
  · generalize hout : refreshHandler env cfg r (World.fresh db amb) = out
    unfold refreshHandler at hout
    by_cases hm : r.Method = MethodPost
    · simp only [hm, if_true] at hout
      repeat' split at hout
      all_goals subst hout
      all_goals simp_all [World.response, Event.isStore, Event.isToken, StatusBadRequest]
    · simp only [hm, if_false] at hout
      subst hout
      simp_all
  · generalize hout : revokedHandler env cfg r (World.fresh db amb) = out
    unfold revokedHandler at hout
    by_cases hm : r.Method = MethodPost
    · simp only [hm, if_true] at hout
      repeat' split at hout
      all_goals subst hout
      all_goals simp_all [World.response, Event.isStore, Event.isToken, StatusBadRequest]
    · simp only [hm, if_false] at hout
      subst hout
      simp_all
  · generalize hout : saveHandler env cfg r (World.fresh db amb) = out
    unfold saveHandler at hout
    by_cases hg : r.Method = MethodGet
    · simp only [hg, if_true] at hout
      repeat' split at hout
      all_goals subst hout
      all_goals simp_all
    · by_cases hp : r.Method = MethodPut
      · simp only [hg, hp, if_true, if_false, saveHandlerPut] at hout
        repeat' split at hout
        all_goals subst hout
        all_goals simp_all [World.response, Event.isStore, Event.isToken, StatusUnauthorized]
      · by_cases hq : r.Method = MethodPost
        · simp only [hg, hp, hq, if_true, if_false, saveHandlerPost] at hout
          repeat' split at hout
          all_goals subst hout
          all_goals simp_all [World.response, Event.isStore, Event.isToken,
            StatusUnauthorized]
        · simp only [hg, hp, hq, if_false] at hout
          subst hout
          simp_all

/-- C7, at concrete requests without an `Authorization` header: a refresh, a
revoke and a save `PUT`. -/
theorem bearer_error_stops_handler_witness :
    (refreshHandler memEnv sampleCfg noBearer (World.fresh store1 amb1)).w = [.WriteHeader 400] ∧
    (revokedHandler memEnv sampleCfg noBearer (World.fresh store1 amb1)).w = [.WriteHeader 400] ∧
    (saveHandler memEnv sampleCfg putSaveNoBearer (World.fresh store1 amb1)).w =
      [.WriteHeader 401] ∧
    (saveHandler memEnv sampleCfg noBearer (World.fresh store1 amb1)).w = [.WriteHeader 401] :=
  ⟨((bearer_error_stops_handler memEnv sampleCfg noBearer store1 amb1 [] ""
      (.other "no auth header included in request")).1 (by decide)).1,
    ((bearer_error_stops_handler memEnv sampleCfg noBearer store1 amb1 [] ""
      (.other "no auth header included in request")).2.1 (by decide)).1,
    ((bearer_error_stops_handler memEnv sampleCfg putSaveNoBearer store1 amb1
      [("Content-Type", "application/json")] ""
      (.other "no auth header included in request")).2.2 (by decide)).2.1,
    ((bearer_error_stops_handler memEnv sampleCfg noBearer store1 amb1 [] ""
      (.other "no auth header included in request")).2.2 (by decide)).2.1⟩


/-! ## Revoke -/

theorem MemStore.revoke_found (s : MemStore) (tok : String) (hc : s.conn = none)
    (h : ∃ t ∈ s.tokens, t.Token = tok) :
    (s.RevokeToken tok).err = none ∧ (s.RevokeToken tok).st.conn = none ∧
    (∃ t ∈ (s.RevokeToken tok).st.tokens, t.Token = tok) ∧
    ∀ t ∈ (s.RevokeToken tok).st.tokens, t.Token = tok → t.RevokedAt.Valid = true := by
  obtain ⟨t0, ht0, hk0⟩ := h
  unfold MemStore.RevokeToken MemStore.exec
  simp only [hc]
  cases hf : s.tokens.find? (fun t => decide (t.Token = tok)) with
  | none =>
    have := List.find?_eq_none.mp hf t0 ht0
    simp [hk0] at this
  | some t1 =>
    dsimp only
    refine ⟨rfl, rfl, ?_, ?_⟩
    · refine ⟨{ t0 with RevokedAt := ⟨s.now, true⟩ }, ?_, hk0⟩
      simp only [List.mem_map]
      exact ⟨t0, ht0, by simp [hk0]⟩
    · intro t ht hk
      simp only [List.mem_map] at ht
      obtain ⟨t2, _, rfl⟩ := ht
      by_cases h2 : t2.Token = tok
      · simp [h2]
      · simp [h2] at hk

theorem MemStore.revoke_missing (s : MemStore) (tok : String) (hc : s.conn = none)
    (h : ∀ t ∈ s.tokens, t.Token ≠ tok) :
    (s.RevokeToken tok).err = some .sqlErrNoRows := by
  unfold MemStore.RevokeToken MemStore.exec
  simp only [hc]
  have hf : s.tokens.find? (fun t => decide (t.Token = tok)) = none :=
    List.find?_eq_none.mpr (by simpa using h)
  simp [hf]

/-- C8: `revokedHandler` delegates to the store.  For a POST request with a
bearer token its one call on the database is `RevokeToken` with that token;
the database is left as that call leaves it; the status is 204 exactly when
the call returned no error, and 401 otherwise.  Over the in-memory store,
whose revoke sets `revokedAt` on any token that exists: revoking an existing
token answers 204 and leaves it revoked, revoking it again answers 204 again,
and revoking a token that does not exist answers 401. -/
theorem revoke_delegates_to_store (env : Env σ ρ) (cfg : apiConfig) (r : Request)
    (db : σ) (amb : ρ) (tok : String) :
    (r.Method = MethodPost → env.GetBearerToken r.Header = (tok, none) →
      (revokedHandler env cfg r (World.fresh db amb)).trace.filter Event.isStore =
        [.RevokeToken tok (env.RevokeToken db tok).err] ∧
      (revokedHandler env cfg r (World.fresh db amb)).db = (env.RevokeToken db tok).st ∧
      ((revokedHandler env cfg r (World.fresh db amb)).response.status = 204 ↔
        (env.RevokeToken db tok).err = none) ∧
      ((env.RevokeToken db tok).err = none →
        (revokedHandler env cfg r (World.fresh db amb)).w = [.WriteHeader 204]) ∧
      ((env.RevokeToken db tok).err ≠ none →
        (revokedHandler env cfg r (World.fresh db amb)).w =
          errorOps "Unabled to revoke token" 401 ∧
        (revokedHandler env cfg r (World.fresh db amb)).response.status = 401)) ∧
    (∀ (s : MemStore) (a : Ambient) (q : Request) (t : String),
      s.conn = none → q.Method = MethodPost → Ambient.GetBearerToken q.Header = (t, none) →
        ((∃ x ∈ s.tokens, x.Token = t) →
          (revokedHandler memEnv cfg q (World.fresh s a)).response.status = 204 ∧
          (∀ x ∈ (revokedHandler memEnv cfg q (World.fresh s a)).db.tokens,
            x.Token = t → x.RevokedAt.Valid = true) ∧
          (revokedHandler memEnv cfg q
            (World.fresh (revokedHandler memEnv cfg q (World.fresh s a)).db a)).response.status
              = 204) ∧
        ((∀ x ∈ s.tokens, x.Token ≠ t) →
          (revokedHandler memEnv cfg q (World.fresh s a)).response.status = 401)) := by
  have key : ∀ {σ' ρ' : Type} (env' : Env σ' ρ') (q : Request) (d : σ') (a : ρ') (t : String),
      q.Method = MethodPost → env'.GetBearerToken q.Header = (t, none) →
      (revokedHandler env' cfg q (World.fresh d a)).trace.filter Event.isStore =
        [.RevokeToken t (env'.RevokeToken d t).err] ∧
      (revokedHandler env' cfg q (World.fresh d a)).db = (env'.RevokeToken d t).st ∧
      ((revokedHandler env' cfg q (World.fresh d a)).response.status = 204 ↔
        (env'.RevokeToken d t).err = none) ∧
      ((env'.RevokeToken d t).err = none →
        (revokedHandler env' cfg q (World.fresh d a)).w = [.WriteHeader 204]) ∧
      ((env'.RevokeToken d t).err ≠ none →
        (revokedHandler env' cfg q (World.fresh d a)).w =
          errorOps "Unabled to revoke token" 401 ∧
        (revokedHandler env' cfg q (World.fresh d a)).response.status = 401) := by
    intro σ' ρ' env' q d a t hq hbt
    generalize hout : revokedHandler env' cfg q (World.fresh d a) = out
    unfold revokedHandler at hout
    simp only [hq, if_true, hbt] at hout
    repeat' split at hout
    all_goals subst hout
    all_goals simp_all [World.response, Event.isStore, errorOps, StatusNoContent,
      StatusUnauthorized]
  refine ⟨key env r db amb tok, ?_⟩
  intro s a q t hc hq hbt
  have k1 := key memEnv q s a t hq hbt
  refine ⟨fun hex => ?_, fun hno => ?_⟩
  · obtain ⟨e1, c1, x1, v1⟩ := MemStore.revoke_found s t hc hex
    have hdb : (revokedHandler memEnv cfg q (World.fresh s a)).db = (s.RevokeToken t).st :=
      k1.2.1
    refine ⟨k1.2.2.1.mpr e1, ?_, ?_⟩
    · rw [hdb]; exact v1
    · rw [hdb]
      have k2 := key memEnv q (s.RevokeToken t).st a t hq hbt
      exact k2.2.2.1.mpr (MemStore.revoke_found _ t c1 x1).1
  · have e1 := MemStore.revoke_missing s t hc hno
    exact (k1.2.2.2.2 (by rw [show memEnv.RevokeToken s t = s.RevokeToken t from rfl, e1]; simp)).2

/-- C8, at concrete requests: alice's token revoked twice, and a token the
store does not hold. -/
theorem revoke_delegates_to_store_witness :
    ((revokedHandler memEnv sampleCfg bearerAliceToken (World.fresh store0 amb0)).response.status
        = 204 ∧
      (revokedHandler memEnv sampleCfg bearerAliceToken
        (World.fresh (revokedHandler memEnv sampleCfg bearerAliceToken
          (World.fresh store0 amb0)).db amb0)).response.status = 204) ∧
    (revokedHandler memEnv sampleCfg bearerUnknown (World.fresh store0 amb0)).response.status
      = 401 :=
  have h := (revoke_delegates_to_store memEnv sampleCfg bearerAliceToken store0 amb0
    "rt-alice").2
  have h1 := (h store0 amb0 bearerAliceToken "rt-alice" rfl (by decide) (by decide)).1
    ⟨aliceToken, by decide, by decide⟩
  have h2 := (h store0 amb0 bearerUnknown "rt-none" rfl (by decide) (by decide)).2 (by decide)
  ⟨⟨h1.1, h1.2.2⟩, h2⟩

/-! ## The password hash stays inside -/

/-- C9: the password hash is never serialized outward.  The JSON object of a
`User` has the seven keys `id`, `created_at`, `updated_at`, `username`,
`token`, `refresh_token`, `save_id` and no other, and `json.Marshal` gives the
same result whatever the `HashedPassword` field holds.  A registration that
answers 201 writes exactly the object built from the id, the timestamps and
the username of the row `CreateUser` returned, with empty tokens and the nil
save id (or no body when a timestamp does not marshal); and over a store that
keeps the hash to its own column the writes of `userHandler` are the same
whatever hash `HashPassword` computed and whatever hash the returned row
carries.  A login that answers 200 writes exactly the object built from the
id, the timestamps and the username of the row found, the access token
minted, the refresh token stored and the save id; and two successful logins
that differ only in the hash the store holds for the user write the same
response. -/
theorem hashed_password_never_serialized (env : Env σ ρ) (cfg : apiConfig) (r : Request)
    (db : σ) (amb : ρ) (f g : String → String) :
    (∀ u : User, u.toJSON.keys =
      ["id", "created_at", "updated_at", "username", "token", "refresh_token", "save_id"]) ∧
    (∀ (u : User) (h : String),
      marshalUser env { u with HashedPassword := h } = marshalUser env u) ∧
    ((userHandler env cfg r (World.fresh db amb)).response.status = 201 →
      ∃ p row, Event.CreateUser p row none ∈ (userHandler env cfg r (World.fresh db amb)).trace ∧
        ((userHandler env cfg r (World.fresh db amb)).w =
            [.SetHeader "Content-Type" "application/json", .WriteHeader 201,
              .Write (.jsonLine (User.toJSON
                ⟨row.ID, row.CreatedAt, row.UpdatedAt, row.Username, "", "", "", UUID.Nil⟩))] ∨
          (userHandler env cfg r (World.fresh db amb)).w =
            [.SetHeader "Content-Type" "application/json", .WriteHeader 201])) ∧
    (storeHidesHash env →
      (userHandler ((env.mapHashed g).mapHash f) cfg r (World.fresh db amb)).w =
        (userHandler env cfg r (World.fresh db amb)).w) ∧
    ((loginHandler env cfg r (World.fresh db amb)).response.status = 200 →
      ∃ n u tok p rt sid,
        Event.GetUserByUsername n u none ∈ (loginHandler env cfg r (World.fresh db amb)).trace ∧
        Event.MakeJWT u.ID cfg.jwtSecret cfg.jwtIssuer Hour tok none ∈
          (loginHandler env cfg r (World.fresh db amb)).trace ∧
        Event.StoreRefreshToken p rt none ∈
          (loginHandler env cfg r (World.fresh db amb)).trace ∧
        (loginHandler env cfg r (World.fresh db amb)).w =
          [.SetHeader "Content-Type" "application/json", .WriteHeader 200,
            .Write (.json (User.toJSON
              ⟨u.ID, u.CreatedAt, u.UpdatedAt, u.Username, "", tok, rt.Token, sid⟩))]) ∧
    ((loginHandler env cfg r (World.fresh db amb)).response.status = 200 →
      (loginHandler (env.mapHash f) cfg r (World.fresh db amb)).response.status = 200 →
      (loginHandler (env.mapHash f) cfg r (World.fresh db amb)).w =
        (loginHandler env cfg r (World.fresh db amb)).w) := by
  refine ⟨fun u => rfl, fun u h => rfl, ?_, ?_, ?_, ?_⟩
  · generalize hout : userHandler env cfg r (World.fresh db amb) = out
    unfold userHandler at hout
    by_cases hm : r.Method = MethodPost
    · simp only [hm, if_true] at hout
      repeat' split at hout
      all_goals subst hout
      all_goals simp_all [World.response, Encode_marshalUser_w, StatusBadRequest,
        StatusCreated, StatusInternalServerError]
      all_goals intro _
      all_goals refine ⟨_, _, ⟨rfl, rfl⟩, ?_⟩
      all_goals split
      all_goals simp_all
    · simp only [hm, if_false] at hout
      subst hout
      simp [World.response, StatusMethodNotAllowed]
  · intro hstore
    obtain ⟨he, hi, hc, hu, hn⟩ := hstore db
      ⟨(env.DecodeParameters r.Body).1.Username,
        (env.HashPassword amb (env.DecodeParameters r.Body).1.Password).val⟩
      (g (env.HashPassword amb (env.DecodeParameters r.Body).1.Password).val)
    unfold userHandler
    by_cases hm : r.Method = MethodPost
    · simp only [hm, if_true, mapHash_DecodeParameters, mapHashed_DecodeParameters,
        mapHash_HashPassword, mapHashed_HashPassword_val, mapHashed_HashPassword_err,
        mapHashed_HashPassword_st, mapHash_CreateUser, mapHashed_CreateUser, query_err,
        ambient_err, query_val, ambient_val, Ret.mapHash_err]
      repeat' split
      all_goals simp_all [Encode_w]
    · simp only [hm, if_false]
  · generalize hout : loginHandler env cfg r (World.fresh db amb) = out
    unfold loginHandler at hout
    by_cases hm : r.Method = MethodPost
    · simp only [hm, if_true] at hout
      repeat' split at hout
      all_goals subst hout
      all_goals simp_all [World.response, loginRespond_w, errorOps, StatusBadRequest,
        StatusUnauthorized, StatusInternalServerError]
      all_goals split
      all_goals simp_all [errorOps]
      all_goals exact ⟨_, _, ⟨rfl, rfl⟩, _, ⟨rfl, rfl⟩, _, _, ⟨rfl, rfl⟩, _, rfl⟩
    · simp only [hm, if_false] at hout
      subst hout
      simp [World.response, StatusMethodNotAllowed]
  · intro hA hB
    generalize h1 : loginHandler env cfg r (World.fresh db amb) = o1 at hA ⊢
    generalize h2 : loginHandler (env.mapHash f) cfg r (World.fresh db amb) = o2 at hB ⊢
    unfold loginHandler at h1 h2
    by_cases hm : r.Method = MethodPost
    · simp only [hm, if_true] at h1 h2
      repeat' split at h1
      all_goals subst h1
      all_goals simp_all [World.response, loginRespond_w, errorOps, StatusBadRequest,
        StatusUnauthorized, StatusInternalServerError]
      all_goals split at h2
      all_goals subst h2
      all_goals simp_all [World.response, loginRespond_w, errorOps, StatusUnauthorized]
    · simp only [hm, if_false] at h1
      subst h1
      simp_all [World.response, StatusMethodNotAllowed]

/-- C9, at concrete requests where the hash really differs between the two
runs.  Bob registers once with the hash `bcrypt:pw3` and once with the hash
`argon2:bcrypt:pw3` handed to the store: the writes are the same, the object
built from the new row with empty tokens.  Alice logs in once with the stored
hash `bcrypt:pw1` and once with `bcrypt$b:pw1`, the hash of the same password
under another salt: both logins succeed and write the same response. -/
theorem hashed_password_never_serialized_witness :
    (Event.CreateUser ⟨"bob", "bcrypt:pw3"⟩ ⟨⟨3⟩, t2024 + 5, t2024 + 5, "bob", "bcrypt:pw3"⟩ none ∈
        (userHandler memEnv sampleCfg registerBob (World.fresh store0 amb0)).trace ∧
      Event.CreateUser ⟨"bob", "argon2:bcrypt:pw3"⟩
          ⟨⟨3⟩, t2024 + 5, t2024 + 5, "bob", "argon2:argon2:bcrypt:pw3"⟩ none ∈
        (userHandler ((memEnv.mapHashed rehash).mapHash rehash) sampleCfg registerBob
          (World.fresh store0 amb0)).trace ∧
      (userHandler ((memEnv.mapHashed rehash).mapHash rehash) sampleCfg registerBob
          (World.fresh store0 amb0)).w =
        (userHandler memEnv sampleCfg registerBob (World.fresh store0 amb0)).w ∧
      (userHandler memEnv sampleCfg registerBob (World.fresh store0 amb0)).w =
        [.SetHeader "Content-Type" "application/json", .WriteHeader 201,
          .Write (.jsonLine (User.toJSON
            ⟨⟨3⟩, t2024 + 5, t2024 + 5, "bob", "", "", "", UUID.Nil⟩))]) ∧
    (Event.CheckPasswordHash "bcrypt:pw1" "pw1" none ∈
        (loginHandler saltedEnv sampleCfg loginAlice (World.fresh store0 amb0)).trace ∧
      Event.CheckPasswordHash "bcrypt$b:pw1" "pw1" none ∈
        (loginHandler (saltedEnv.mapHash resalt) sampleCfg loginAlice
          (World.fresh store0 amb0)).trace ∧
      (loginHandler (saltedEnv.mapHash resalt) sampleCfg loginAlice (World.fresh store0 amb0)).w =
        (loginHandler saltedEnv sampleCfg loginAlice (World.fresh store0 amb0)).w ∧
      (loginHandler saltedEnv sampleCfg loginAlice (World.fresh store0 amb0)).w =
        [.SetHeader "Content-Type" "application/json", .WriteHeader 200,
          .Write (.json (User.toJSON
            ⟨⟨1⟩, t2024, t2024, "alice", "", "jwt-1", "rt-1", UUID.Nil⟩))]) :=
  have hu := hashed_password_never_serialized memEnv sampleCfg registerBob store0 amb0
    rehash rehash
  have hl := hashed_password_never_serialized saltedEnv sampleCfg loginAlice store0 amb0
    resalt rehash
  ⟨⟨by decide, by decide, hu.2.2.2.1 memEnv_hides_hash, by decide⟩,
    ⟨by decide, by decide, hl.2.2.2.2.2 (by decide) (by decide), by decide⟩⟩

/-! ## The save handler -/

/-- C10, at the failing input: a `PUT` with a valid access token and body, on
a store whose connection drops after the update.  `UpdateSaveData` succeeds,
the following `GetSaveData` fails, and the handler writes the 500 error and
then, without returning, a second status 200 and the encoding of the zero
save: two `WriteHeader` calls and two body writes. -/
theorem put_save_get_failure_writes_twice :
    Event.UpdateSaveData ⟨⟨1000⟩, "bmV3", ⟨1⟩⟩ none ∈
      (saveHandler memEnv sampleCfg putSave
        (World.fresh { store1 with conn := some 1 } amb1)).trace ∧
    Event.GetSaveData ⟨1000⟩ DbSave.zero (some errBadConn) ∈
      (saveHandler memEnv sampleCfg putSave
        (World.fresh { store1 with conn := some 1 } amb1)).trace ∧
    statusWrites (saveHandler memEnv sampleCfg putSave
      (World.fresh { store1 with conn := some 1 } amb1)).w = [500, 200] ∧
    bodyWrites (saveHandler memEnv sampleCfg putSave
      (World.fresh { store1 with conn := some 1 } amb1)).w =
      [.jsonLine [("error", .str "Failed to get user data")],
        .jsonLine [("ID", .uuid UUID.Nil), ("CreatedAt", .time zeroTime),
          ("UpdatedAt", .time zeroTime), ("Savedata", .str ""), ("UserID", .uuid UUID.Nil)]] ∧
    (saveHandler memEnv sampleCfg putSave
      (World.fresh { store1 with conn := some 1 } amb1)).response.status = 500 := by
  decide

/-- Every request to `saveHandler` writes exactly one status, except a `PUT`
whose `UpdateSaveData` succeeded and whose `GetSaveData` then failed, which
writes 500 and then 200. -/
theorem saveHandler_status_writes (env : Env σ ρ) (cfg : apiConfig) (r : Request)
    (db : σ) (amb : ρ) :
    (statusWrites (saveHandler env cfg r (World.fresh db amb)).w).length = 1 ∨
    (r.Method = MethodPut ∧
      (∃ p, Event.UpdateSaveData p none ∈ (saveHandler env cfg r (World.fresh db amb)).trace) ∧
      (∃ i v e, Event.GetSaveData i v (some e) ∈
        (saveHandler env cfg r (World.fresh db amb)).trace) ∧
      statusWrites (saveHandler env cfg r (World.fresh db amb)).w = [500, 200]) := by
  generalize hout : saveHandler env cfg r (World.fresh db amb) = out
  unfold saveHandler at hout
  by_cases hg : r.Method = MethodGet
  · simp only [hg, if_true] at hout
    repeat' split at hout
    all_goals subst hout
    all_goals simp_all [statusWrites]
  · by_cases hp : r.Method = MethodPut
    · rw [if_neg hg, if_pos hp] at hout
      unfold saveHandlerPut at hout
      by_cases hct : r.Header.Get "Content-Type" = "application/json" <;>
        by_cases hsd : (env.DecodeSaveDataRequest r.Body).1.Savedata = "" <;>
        simp only [hct, hsd, ne_eq, not_true_eq_false, not_false_eq_true, if_true,
          if_false] at hout
      all_goals repeat' split at hout
      all_goals subst hout
      all_goals try simp only [Encode_w]
      all_goals try split
      all_goals simp_all [statusWrites, StatusOK, StatusInternalServerError]
    · by_cases hq : r.Method = MethodPost
      · rw [if_neg hg, if_neg hp, if_pos hq] at hout
        unfold saveHandlerPost at hout
        by_cases hct : r.Header.Get "Content-Type" = "application/json" <;>
          by_cases hsd : (env.DecodeSaveDataRequest r.Body).1.Savedata = "" <;>
          simp only [hct, hsd, ne_eq, not_true_eq_false, not_false_eq_true, if_true,
            if_false] at hout
        all_goals repeat' split at hout
        all_goals subst hout
        all_goals try simp only [Encode_w]
        all_goals try split
        all_goals simp_all [statusWrites]
      · rw [if_neg hg, if_neg hp, if_neg hq] at hout
        subst hout
        simp_all [statusWrites]

end ClickerServer
